import Mathlib

/-!
Verification development for the baryon-lang toolchain: a shallow embedding
of the lexer (internal/lexer/lexer.go), the S-expression parser and AST
builder (internal/parser), the shared transpiler base
(internal/transpiler), and the R, Python, Nextflow and Galaxy backends,
together with theorems about them.

Go bytes are modelled as Lean `Char`s (all inputs of interest are ASCII);
Go strings are `String`/`List Char`; Go maps that the code only reads by
key are association lists; Go slices are lists.  Loops are modelled by
structural recursion on an explicit fuel argument; every top-level entry
point supplies fuel that provably exceeds the number of iterations the Go
loop can perform, so the fuel-exhaustion branches are unreachable there.
-/

namespace Baryon

/-- The NUL byte, Go's end-of-input sentinel (`l.ch = 0`). -/
def nullChar : Char := Char.ofNat 0

/-- internal/lexer/lexer.go `TokenType`. -/
inductive TokenType where
  | illegal | eof | lparen | rparen | identifier | string | number | character | comment
deriving DecidableEq, Repr

/-- internal/lexer/lexer.go `Token`. -/
structure Token where
  type : TokenType
  literal : String
  line : Nat
  column : Nat
deriving DecidableEq, Repr

/-- internal/lexer/lexer.go `Lexer`: the mutable scanner state. -/
structure LexerState where
  input : List Char
  position : Nat
  readPosition : Nat
  ch : Char
  line : Nat
  column : Nat
deriving DecidableEq, Repr

/-- Go `l.input[i]` with the out-of-range convention of `readChar`/`peekChar`
(indices past the end read as the NUL sentinel). -/
def charAt (input : List Char) (i : Nat) : Char :=
  (input.drop i).headD nullChar

/-- internal/lexer/lexer.go `isLetter`. -/
def isLetter (ch : Char) : Bool :=
  (Char.ofNat 97 ≤ ch ∧ ch ≤ Char.ofNat 122) ∨ (Char.ofNat 65 ≤ ch ∧ ch ≤ Char.ofNat 90)

/-- internal/lexer/lexer.go `isDigit`. -/
def isDigit (ch : Char) : Bool :=
  Char.ofNat 48 ≤ ch ∧ ch ≤ Char.ofNat 57

/-- internal/lexer/lexer.go `peekChar`. -/
def peekChar (l : LexerState) : Char :=
  charAt l.input l.readPosition

/-- internal/lexer/lexer.go `readChar`, first half: read the character under
`readPosition`, advance the positions, and update line/column for a
newline. -/
def readCharCore (l : LexerState) : LexerState :=
  let ch := charAt l.input l.readPosition
  let l1 : LexerState :=
    { l with ch := ch, position := l.readPosition, readPosition := l.readPosition + 1 }
  if ch = '\n' then { l1 with line := l1.line + 1, column := 0 }
  else { l1 with column := l1.column + 1 }

/-- internal/lexer/lexer.go `readChar`, final column fix-up (driven by the
column recorded at entry). -/
def readCharFix (startColumn : Nat) (l3 : LexerState) : LexerState :=
  if startColumn > 0 ∧ l3.column = 0 then { l3 with column := 1 }
  else if startColumn = 0 ∧ l3.column = 0 ∧ l3.ch ≠ nullChar then { l3 with column := 1 }
  else l3

/-- internal/lexer/lexer.go `readChar`, with the recursive call it makes for a
`\r\n` pair modelled by one unit of fuel: the recursion is entered only when
the next character is `\n`, in which case the inner call does not recurse
again, so fuel 2 (`readChar` below) realises the Go semantics exactly.
(The just-read character tested by the `\r` branches is `(readCharCore l).ch`,
exactly the Go `l.ch` at that point.) -/
def readCharF : Nat → LexerState → LexerState
  | 0, l => l
  | fuel + 1, l =>
    let startColumn := l.column
    let l2 := readCharCore l
    let l3 : LexerState :=
      if l2.ch = '\r' ∧ peekChar l2 = '\n' then readCharF fuel l2
      else if l2.ch = '\r' then { l2 with line := l2.line + 1, column := 0 }
      else l2
    readCharFix startColumn l3

/-- internal/lexer/lexer.go `readChar` (see `readCharF`). -/
def readChar (l : LexerState) : LexerState := readCharF 2 l

/-- internal/lexer/lexer.go `New`: `line` starts at 1 and `readChar` is run
once to initialise the state. -/
def newLexer (input : List Char) : LexerState :=
  readChar { input := input, position := 0, readPosition := 0, ch := nullChar, line := 1, column := 0 }

/-- internal/lexer/lexer.go `skipWhitespace`, loop body. -/
def skipWhitespaceF : Nat → LexerState → LexerState
  | 0, l => l
  | fuel + 1, l =>
    if l.ch = ' ' ∨ l.ch = '\t' ∨ l.ch = '\n' ∨ l.ch = '\r' then
      skipWhitespaceF fuel (readChar l)
    else l

/-- internal/lexer/lexer.go `skipWhitespace`.  Each iteration requires a
whitespace `ch` (hence `position < |input|`) and advances `readPosition`, so
`|input| + 2` iterations can never be reached. -/
def skipWhitespace (l : LexerState) : LexerState :=
  skipWhitespaceF (l.input.length + 2) l

/-- internal/lexer/lexer.go `readString`, main loop.  The Go function also
maintains a `strings.Builder`, but the returned literal is sliced directly
from the input (`l.input[position:l.position]`), so the builder is dead code
for the result and is not modelled; `prevCh` is kept because it drives the
escaped-quote control flow. -/
def readStringLoop (quoteType : Char) : Nat → LexerState → LexerState
  | 0, l => l
  | fuel + 1, l =>
    let prevCh := l.ch
    let l1 := readChar l
    if l1.ch = quoteType then
      if prevCh = '\\' then readStringLoop quoteType fuel l1
      else l1
    else if l1.ch = nullChar then l1
    else
      let l2 := if l1.ch = '\\' ∧ peekChar l1 = quoteType then readChar l1 else l1
      readStringLoop quoteType fuel l2

/-- Go slice `l.input[a:b]` as a string (empty when the range is improper). -/
def sliceStr (input : List Char) (a b : Nat) : String :=
  ⟨(input.take b).drop a⟩

/-- internal/lexer/lexer.go `readString`: returns the literal (the raw slice
between the quotes, or up to end of input) and the state after consuming the
closing quote if one was found. -/
def readString (l : LexerState) (quoteType : Char) : String × LexerState :=
  let position := l.position + 1
  let lEnd := readStringLoop quoteType (l.input.length + 2) l
  let str := sliceStr l.input position lEnd.position
  let lFin := if lEnd.ch = quoteType then readChar lEnd else lEnd
  (str, lFin)

/-- internal/lexer/lexer.go `readComment`, loop body. -/
def readCommentF : Nat → LexerState → LexerState
  | 0, l => l
  | fuel + 1, l =>
    if l.ch ≠ '\n' ∧ l.ch ≠ '\r' ∧ l.ch ≠ nullChar then
      readCommentF fuel (readChar l)
    else l

/-- internal/lexer/lexer.go `readComment`: reads from `;` to end of line and
returns `l.input[position+1:l.position]`. -/
def readComment (l : LexerState) : String × LexerState :=
  let position := l.position + 1
  let lEnd := readCommentF (l.input.length + 2) l
  (sliceStr l.input position lEnd.position, lEnd)

/-- internal/lexer/lexer.go `readIdentifier`, inner scan loop. -/
def readIdentScanF : Nat → LexerState → LexerState
  | 0, l => l
  | fuel + 1, l =>
    if isLetter l.ch ∨ isDigit l.ch ∨ l.ch = '_' then
      readIdentScanF fuel (readChar l)
    else l

/-- internal/lexer/lexer.go `readIdentifier`: scans the identifier, backtracks
one character (with the column/line adjustment the Go code performs), slices
the literal, and advances once more for the next token. -/
def readIdentifier (l : LexerState) : String × LexerState :=
  let position := l.position
  let lScanned :=
    if isLetter l.ch ∨ l.ch = '_' then readIdentScanF (l.input.length + 2) (readChar l)
    else l
  let l1 : LexerState :=
    { lScanned with readPosition := lScanned.readPosition - 1, position := lScanned.position - 1 }
  let l2 : LexerState :=
    if charAt l1.input l1.position = '\n' then { l1 with line := l1.line - 1, column := 0 }
    else { l1 with column := l1.column - 1 }
  let l3 : LexerState := { l2 with ch := charAt l2.input l2.position }
  let ident := sliceStr l3.input position l3.readPosition
  (ident, readChar l3)

/-- internal/lexer/lexer.go `readNumber`, inner scan loop (tracks `hasDot`). -/
def readNumberScanF : Nat → Bool → LexerState → Bool × LexerState
  | 0, hasDot, l => (hasDot, l)
  | fuel + 1, hasDot, l =>
    if isDigit l.ch ∨ (l.ch = '.' ∧ ¬hasDot) then
      readNumberScanF fuel (hasDot ∨ l.ch = '.') (readChar l)
    else (hasDot, l)

/-- internal/lexer/lexer.go `readNumber`: same backtracking pattern as
`readIdentifier`. -/
def readNumber (l : LexerState) : String × LexerState :=
  let position := l.position
  let lScanned := (readNumberScanF (l.input.length + 2) false l).2
  let l1 : LexerState :=
    { lScanned with readPosition := lScanned.readPosition - 1, position := lScanned.position - 1 }
  let l2 : LexerState :=
    if charAt l1.input l1.position = '\n' then { l1 with line := l1.line - 1, column := 0 }
    else { l1 with column := l1.column - 1 }
  let l3 : LexerState := { l2 with ch := charAt l2.input l2.position }
  let numStr := sliceStr l3.input position l3.readPosition
  (numStr, readChar l3)

/-- internal/lexer/lexer.go `Token()`: the token-producing loop.  Each
iteration consumes at least one input character (or emits the final
end-of-input token and stops), so fuel `|input| + 2` always suffices. -/
def tokenizeLoop : Nat → LexerState → List Token
  | 0, _ => []
  | fuel + 1, l0 =>
    let l := skipWhitespace l0
    let line := l.line
    let column := l.column
    if l.ch = '(' then
      ⟨.lparen, "(", line, column⟩ :: tokenizeLoop fuel (readChar l)
    else if l.ch = ')' then
      ⟨.rparen, ")", line, column⟩ :: tokenizeLoop fuel (readChar l)
    else if l.ch = '"' then
      let (lit, l') := readString l '"'
      ⟨.string, lit, line, column⟩ :: tokenizeLoop fuel l'
    else if l.ch = Char.ofNat 39 then
      let (lit, l') := readString l (Char.ofNat 39)
      ⟨.character, lit, line, column⟩ :: tokenizeLoop fuel l'
    else if l.ch = ';' then
      let (lit, l') := readComment l
      ⟨.comment, lit, line, column⟩ :: tokenizeLoop fuel l'
    else if l.ch = nullChar then
      [⟨.eof, "", line, column⟩]
    else if isLetter l.ch ∨ l.ch = '_' then
      let (lit, l') := readIdentifier l
      ⟨.identifier, lit, line, column⟩ :: tokenizeLoop fuel l'
    else if isDigit l.ch then
      let (lit, l') := readNumber l
      ⟨.number, lit, line, column⟩ :: tokenizeLoop fuel l'
    else
      ⟨.illegal, String.singleton l.ch, line, column⟩ :: tokenizeLoop fuel (readChar l)

/-- The full token sequence of an input, as the parser's `iter.Pull` consumer
observes it. -/
def tokenize (input : String) : List Token :=
  tokenizeLoop (input.data.length + 2) (newLexer input.data)

end Baryon

namespace Baryon

/-- internal/parser `SExpr`: a token plus a (possibly empty) list of
children. -/
inductive SExpr where
  | mk (token : Token) (children : List SExpr)

/-- The token of an S-expression node. -/
def SExpr.token : SExpr → Token
  | .mk t _ => t

/-- The children of an S-expression node. -/
def SExpr.children : SExpr → List SExpr
  | .mk _ c => c

/-- The zero-value `lexer.Token` the parser substitutes once the token
iterator is exhausted (`p.peekToken = lexer.Token{Type: lexer.TOKEN_EOF}`). -/
def eofToken : Token := ⟨.eof, "", 0, 0⟩

/-- The parser's current token: the head of the remaining stream, or the
synthesised zero-value EOF token once the stream is exhausted. -/
def cur (ts : List Token) : Token := ts.headD eofToken

/-- internal/parser `addError` message format:
`"Line %d, Column %d: %s"` with the current token's position. -/
def mkParseError (t : Token) (msg : String) : String :=
  "Line " ++ toString t.line ++ ", Column " ++ toString t.column ++ ": " ++ msg

/-- The parser's `advance` skips comment tokens, so the parser effectively
consumes the comment-free stream. -/
def stripComments (ts : List Token) : List Token :=
  ts.filter (fun t => t.type ≠ TokenType.comment)

mutual
/-- internal/parser `parseSExprNode`.  On an opening parenthesis it consumes
the parenthesis and reads children until `)` or end of input
(`parseChildrenF`); on any other token it returns that token as a leaf and
advances.  An error aborts the whole parse (in Go the first `addError` of
this phase is immediately turned into the combined error and returned), so
the error value is the single formatted message. -/
def parseSExprNodeF : Nat → List Token → Except String (SExpr × List Token)
  | 0, _ => .error "internal: parser fuel exhausted"
  | fuel + 1, ts =>
    if (cur ts).type = TokenType.lparen then
      match parseChildrenF fuel ts.tail with
      | .error e => .error e
      | .ok (children, rest) => .ok (.mk (cur ts) children, rest)
    else
      .ok (.mk (cur ts) [], ts.tail)

/-- internal/parser `parseSExprNode`, child loop: reads child nodes until a
closing parenthesis (consumed) or end of input (the fatal
"missing closing parenthesis in S-expression" error, at the current token's
position). -/
def parseChildrenF : Nat → List Token → Except String (List SExpr × List Token)
  | 0, _ => .error "internal: parser fuel exhausted"
  | fuel + 1, ts =>
    if (cur ts).type = TokenType.rparen then
      .ok ([], ts.tail)
    else if (cur ts).type = TokenType.eof then
      .error (mkParseError (cur ts) "missing closing parenthesis in S-expression")
    else if (cur ts).type = TokenType.lparen then
      match parseSExprNodeF fuel ts with
      | .error e => .error e
      | .ok (child, rest) =>
        match parseChildrenF fuel rest with
        | .error e => .error e
        | .ok (children, rest') => .ok (child :: children, rest')
    else
      match parseChildrenF fuel ts.tail with
      | .error e => .error e
      | .ok (children, rest') => .ok (.mk (cur ts) [] :: children, rest')
end

/-- internal/parser `parseSExpr`, the skip-to-first-`(` loop. -/
def skipToLParen (ts : List Token) : List Token :=
  ts.dropWhile (fun t => t.type ≠ TokenType.lparen ∧ t.type ≠ TokenType.eof)

/-- internal/parser `parseSExpr`: skip to the first opening parenthesis
(fatal "unexpected end of input before program definition" if none before
end of input), then parse one S-expression node. -/
def parseSExpr (fuel : Nat) (ts : List Token) : Except String (SExpr × List Token) :=
  let ts' := skipToLParen ts
  if (cur ts').type = TokenType.eof then
    .error (mkParseError (cur ts') "unexpected end of input before program definition")
  else
    parseSExprNodeF fuel ts'

end Baryon

namespace Baryon

/-- internal/ast `Parameter` metadata / `Program` metadata: a Go
`map[string]string`, modelled as an association list with last-write-wins
update (`mapSet`) and key lookup (`List.lookup`). -/
def mapSet (m : List (String × String)) (k v : String) : List (String × String) :=
  if (m.lookup k).isSome then m.map (fun p => if p.1 = k then (k, v) else p)
  else m ++ [(k, v)]

/-- The value shapes an `ImplementationBlock` field can hold
(`map[string]any` in Go: a plain string, a list of literals for
`arguments`, a list of 2-element key/value pairs for `volumes`, or `nil`). -/
inductive FieldValue where
  | str (s : String)
  | list (xs : List String)
  | pairs (ps : List (String × String))
  | null
deriving DecidableEq, Repr

/-- internal/ast `Parameter`.  The parser only ever stores strings in
`Constraints` (and never sets `Default`), so constraints are `List String`
and the default is an optional string. -/
structure Parameter where
  name : String := ""
  description : String := ""
  type : String := ""
  constraints : List String := []
  default : Option String := none
  metadata : List (String × String) := []
deriving DecidableEq, Repr

/-- internal/ast `ImplementationBlock`. -/
structure ImplementationBlock where
  name : String := ""
  description : String := ""
  fields : List (String × FieldValue) := []
deriving DecidableEq, Repr

/-- internal/ast `OutputBlock`. -/
structure OutputBlock where
  name : String := ""
  format : String := ""
  path : String := ""
  description : String := ""
deriving DecidableEq, Repr

/-- internal/ast `Program` (the current version, with `Outputs`). -/
structure Program where
  name : String := ""
  description : String := ""
  parameters : List Parameter := []
  implementations : List ImplementationBlock := []
  metadata : List (String × String) := []
  outputs : List OutputBlock := []
deriving DecidableEq, Repr

/-- Go `map[string]any` update for implementation-block fields
(last write wins). -/
def fieldsSet (m : List (String × FieldValue)) (k : String) (v : FieldValue)
    : List (String × FieldValue) :=
  if (m.lookup k).isSome then m.map (fun p => if p.1 = k then (k, v) else p)
  else m ++ [(k, v)]

/-- internal/parser `parseParameterSExpr`: enum-constraint extraction from
the `(name enum v1 v2 ...)` shape, children from index 2 on. -/
def enumDirectConstraints (children : List SExpr) : List String :=
  children.foldl
    (fun acc child =>
      if child.children.length > 0 ∧ (child.children.headD (.mk eofToken [])).token.literal = "desc" then
        acc
      else if child.token.type = TokenType.string then
        acc ++ [child.token.literal]
      else if child.children.length > 0 then
        acc ++ (child.children.filterMap
          (fun v => if v.token.type = TokenType.string then some v.token.literal else none))
      else acc)
    []

/-- internal/parser `parseParameterSExpr`: enum-constraint extraction from
the `(name (enum (...)))` shape, children of the nested node from index 1
on. -/
def enumNestedConstraints (children : List SExpr) : List String :=
  children.foldl
    (fun acc enumValueNode =>
      if enumValueNode.children.length > 0 then
        acc ++ (enumValueNode.children.filterMap
          (fun v => if v.token.type = TokenType.string then some v.token.literal else none))
      else acc)
    []

/-- internal/parser `parseParameterSExpr`: the metadata scan over children
from index 2 on (`desc` sets the description and a `desc` metadata entry;
any other `(key value)` block stores the second child's literal). -/
def paramMetaScan (children : List SExpr) (param : Parameter) : Parameter :=
  children.foldl
    (fun p metaNode =>
      if metaNode.children.length > 0 ∧
          (metaNode.children.headD (.mk eofToken [])).token.type = TokenType.identifier then
        let keyword := (metaNode.children.headD (.mk eofToken [])).token.literal
        if keyword = "desc" ∧ metaNode.children.length > 1 then
          if (metaNode.children.getD 1 (.mk eofToken [])).token.type = TokenType.string then
            let desc := (metaNode.children.getD 1 (.mk eofToken [])).token.literal
            { p with description := desc, metadata := mapSet p.metadata "desc" desc }
          else p
        else if metaNode.children.length > 1 then
          { p with metadata :=
              mapSet p.metadata keyword (metaNode.children.getD 1 (.mk eofToken [])).token.literal }
        else p
      else p)
    param

/-- internal/parser `parseParameterSExpr`. -/
def parseParameterSExpr (node : SExpr) : Parameter :=
  if node.children.length = 0 then {} else
  let paramName := (node.children.headD (.mk eofToken [])).token.literal
  let param : Parameter := { name := paramName }
  let param :=
    if node.children.length > 1 then
      let c1 := node.children.getD 1 (.mk eofToken [])
      if c1.token.type = TokenType.identifier then
        if c1.token.literal = "enum" then
          let p := { param with type := "enum" }
          if node.children.length > 2 then
            { p with constraints := enumDirectConstraints (node.children.drop 2) }
          else p
        else { param with type := c1.token.literal }
      else if c1.children.length > 0 then
        if (c1.children.headD (.mk eofToken [])).token.literal = "enum" then
          { param with type := "enum", constraints := enumNestedConstraints (c1.children.drop 1) }
        else param
      else param
    else param
  paramMetaScan (node.children.drop 2) param

/-- internal/parser `parseImplementationBlockSExpr`, per-field processing. -/
def implFieldStep (block : ImplementationBlock) (fieldNode : SExpr) : ImplementationBlock :=
  if fieldNode.children.length = 0 then block
  else if (fieldNode.children.headD (.mk eofToken [])).token.type = TokenType.identifier then
    let fieldName := (fieldNode.children.headD (.mk eofToken [])).token.literal
    if fieldName = "image" ∨ fieldName = "command" then
      if fieldNode.children.length > 1 ∧
          (fieldNode.children.getD 1 (.mk eofToken [])).token.type = TokenType.string then
        let v : FieldValue := .str (fieldNode.children.getD 1 (.mk eofToken [])).token.literal
        { block with fields := fieldsSet block.fields fieldName v }
      else block
    else if fieldName = "volumes" then
      let volumes := (fieldNode.children.drop 1).filterMap
        (fun volumeNode =>
          if volumeNode.children.length ≥ 2 then
            some ((volumeNode.children.headD (.mk eofToken [])).token.literal,
                  (volumeNode.children.getD 1 (.mk eofToken [])).token.literal)
          else none)
      { block with fields := fieldsSet block.fields fieldName (.pairs volumes) }
    else if fieldName = "arguments" then
      let args := (fieldNode.children.drop 1).map (fun argNode => argNode.token.literal)
      { block with fields := fieldsSet block.fields fieldName (.list args) }
    else
      if fieldNode.children.length > 1 then
        let v : FieldValue := .str (fieldNode.children.getD 1 (.mk eofToken [])).token.literal
        { block with fields := fieldsSet block.fields fieldName v }
      else
        { block with fields := fieldsSet block.fields fieldName .null }
  else block

/-- internal/parser `parseImplementationBlockSExpr` (callers guarantee the
node has at least one child). -/
def parseImplementationBlockSExpr (node : SExpr) : ImplementationBlock :=
  let block : ImplementationBlock :=
    { name := (node.children.headD (.mk eofToken [])).token.literal }
  (node.children.drop 1).foldl implFieldStep block

/-- internal/lexer/lexer.go `TokenType.String()`, used by the
"unexpected token %s in program body" message. -/
def tokenTypeName : TokenType → String
  | .illegal => "ILLEGAL"
  | .eof => "EOF"
  | .lparen => "LPAREN"
  | .rparen => "RPAREN"
  | .identifier => "IDENTIFIER"
  | .string => "STRING"
  | .number => "NUMBER"
  | .character => "CHARACTER"
  | .comment => "COMMENT"

/-- internal/parser `sExprToAST`, the body-dispatch loop: `desc` sets the
program description, `run_docker` appends an implementation block, anything
else is parsed as a parameter; a non-identifier first element accumulates a
structural error (at `errTok`, the parser's current token, which no longer
changes during this phase). -/
def processBodyStep (errTok : Token) (acc : Program × List String) (child : SExpr)
    : Program × List String :=
  let prog := acc.1
  let errs := acc.2
  if child.children.length = 0 then (prog, errs)
  else
    let firstElement := child.children.headD (.mk eofToken [])
    if firstElement.token.type ≠ TokenType.identifier then
      (prog, errs ++ [mkParseError errTok
        ("unexpected token " ++ tokenTypeName firstElement.token.type ++ " in program body")])
    else if firstElement.token.literal = "desc" then
      if child.children.length > 1 ∧
          (child.children.getD 1 (.mk eofToken [])).token.type = TokenType.string then
        ({ prog with description := (child.children.getD 1 (.mk eofToken [])).token.literal }, errs)
      else (prog, errs)
    else if firstElement.token.literal = "run_docker" then
      ({ prog with implementations :=
          prog.implementations ++ [parseImplementationBlockSExpr child] }, errs)
    else
      ({ prog with parameters := prog.parameters ++ [parseParameterSExpr child] }, errs)

/-- internal/parser `sExprToAST`, the body loop as a fold of
`processBodyStep`. -/
def processBody (errTok : Token) (children : List SExpr) (prog : Program)
    (errs : List String) : Program × List String :=
  children.foldl (processBodyStep errTok) (prog, errs)

/-- internal/parser `sExprToAST`: fatal root-structure checks, then the body
walk.  A fatal error is returned at once; non-fatal errors are accumulated
and returned alongside the program (Go keeps them in `p.errors`). -/
def sExprToAST (errTok : Token) (root : SExpr) : Except String (Program × List String) :=
  if root.children.length < 3 then
    .error (mkParseError errTok "invalid program structure: not enough elements")
  else if ¬((root.children.headD (.mk eofToken [])).token.type = TokenType.identifier ∧
            (root.children.headD (.mk eofToken [])).token.literal = "bala") then
    .error (mkParseError errTok "program must start with 'bala'")
  else if (root.children.getD 1 (.mk eofToken [])).token.type ≠ TokenType.identifier then
    .error (mkParseError errTok "invalid program name")
  else
    let prog : Program :=
      { name := (root.children.getD 1 (.mk eofToken [])).token.literal,
        parameters := [], implementations := [], metadata := [] }
    let programBody := root.children.getD 2 (.mk eofToken [])
    .ok (processBody errTok programBody.children prog [])

/-- internal/parser `getError`: the accumulated messages joined by
newlines. -/
def joinErrors (errs : List String) : String :=
  String.intercalate "\n" errs

/-- internal/parser `ParseProgram`: tokenize (comments are filtered by
`advance`), read one S-expression, convert it to the typed AST, and fail if
any structural errors were collected. -/
def parseAndBuild (ts : List Token) : Except String Program :=
  match parseSExpr (2 * ts.length + 4) ts with
  | .error e => .error e
  | .ok (root, rest) =>
    match sExprToAST (cur rest) root with
    | .error e => .error e
    | .ok (prog, errs) => if errs ≠ [] then .error (joinErrors errs) else .ok prog

/-- internal/parser `ParseProgram` on a source string (`advance` filters
comment tokens out of the stream). -/
def parseProgram (input : String) : Except String Program :=
  parseAndBuild (stripComments (tokenize input))

end Baryon

namespace Baryon

/-- internal/transpiler `TranspilerBase`: the per-instance mutable state (the
indentation counter, a Go `int`, and the output buffer).  The handler and
validator maps each backend's constructor installs are fixed per backend and
are modelled directly in the backend's lookup functions below. -/
structure TranspilerBase where
  indentLevel : Int := 0
  buffer : String := ""
deriving DecidableEq, Repr

/-- Go `strings.Repeat(s, count)` as used by `WriteLine` (Go panics on a
negative count; the claims only concern non-negative levels, where `toNat`
coincides with the Go behaviour). -/
def stringsRepeat (s : String) (count : Int) : String :=
  String.join (List.replicate count.toNat s)

/-- internal/transpiler `TranspilerBase.WriteLine`: the indentation prefix
(two spaces per level), the already-formatted text, and a trailing newline
are appended to the buffer.  (Go formats with `fmt.Fprintf`; the embedding
passes the formatted text.) -/
def writeLine (t : TranspilerBase) (s : String) : TranspilerBase :=
  { t with buffer := t.buffer ++ (stringsRepeat "  " t.indentLevel ++ (s ++ "\n")) }

/-- internal/transpiler `TranspilerBase.GetIndentLevel`. -/
def getIndentLevel (t : TranspilerBase) : Int := t.indentLevel

/-- internal/transpiler `TranspilerBase.SetIndentLevel`. -/
def setIndentLevel (t : TranspilerBase) (level : Int) : TranspilerBase :=
  { t with indentLevel := level }

/-- internal/transpiler `FormatDescription` (`strings.TrimSpace` on each
line, joined by single spaces). -/
def formatDescription (desc : String) : String :=
  String.intercalate " " ((desc.splitOn "\n").map (fun line => line.trim))

/-- internal/transpiler `IdentifyFileParameters`. -/
def identifyFileParameters (params : List Parameter) : List String :=
  params.filterMap (fun p => if p.type = "file" ∨ p.type = "directory" then some p.name else none)

/-- internal/transpiler `IsParamReference`. -/
def isParamReference (s : String) (params : List Parameter) : Bool :=
  params.any (fun p => p.name = s)

/-- internal/transpiler `GetParamType`. -/
def getParamType (name : String) (params : List Parameter) : String :=
  match params.find? (fun p => p.name = name) with
  | some p => p.type
  | none => ""

/-- Modelled from the spec: the parameter-type name constants
(`TypeString` … `TypeEnum`) are declared in a transpiler source file that is
not among the repository files provided; their values are the fixed
parameter-type set of the data model ("string", "number", "integer",
"boolean", "file", "directory", "character", "enum"), exactly as the
validator registrations and the parser use them. -/
def TypeString : String := "string"

/-- Modelled from the spec: see `TypeString`. -/
def TypeNumber : String := "number"

/-- Modelled from the spec: see `TypeString`. -/
def TypeInteger : String := "integer"

/-- Modelled from the spec: see `TypeString`. -/
def TypeBoolean : String := "boolean"

/-- Modelled from the spec: see `TypeString`. -/
def TypeFile : String := "file"

/-- Modelled from the spec: see `TypeString`. -/
def TypeDirectory : String := "directory"

/-- Modelled from the spec: see `TypeString`. -/
def TypeCharacter : String := "character"

/-- Modelled from the spec: see `TypeString`. -/
def TypeEnum : String := "enum"

/-- Go's `%v` of a `Parameter.Default` (`any`): the string itself when set;
the parser never sets a default, and a `nil` `any` prints as `<nil>`. -/
def defaultVerb : Option String → String
  | some s => s
  | none => "<nil>"

end Baryon

namespace Baryon

/-! ## The R backend (internal/transpiler/transpiler_r.go, `RTranspiler`) -/

/-- transpiler_r.go `writeDocumentation`. -/
def rWriteDocumentation (t : TranspilerBase) (p : Program) : TranspilerBase :=
  let t := writeLine t ("#' " ++ p.name)
  let t := writeLine t "#'"
  let t := if p.description ≠ "" then
      writeLine t ("#' @description " ++ formatDescription p.description)
    else t
  let t := p.parameters.foldl
    (fun t param =>
      let desc := if param.description = "" then
          "Parameter of type '" ++ (param.type ++ "'")
        else param.description
      let desc := if param.type = "enum" ∧ param.constraints.length > 0 then
          desc ++ (" (allowed values: " ++ (String.intercalate ", " param.constraints ++ ")"))
        else desc
      writeLine t ("#' @param " ++ (param.name ++ (" " ++ formatDescription desc)))) t
  let returnDesc := (p.metadata.lookup "return").getD "Results of the operation"
  let t := writeLine t ("#' @return " ++ formatDescription returnDesc)
  let t := writeLine t "#'"
  writeLine t "#' @export"

/-- transpiler_r.go `writeSignature`.  The `boolean` default branch asserts
`param.Default.(bool)`, which always fails in the embedding (defaults are
strings), so it falls through to the `%v` formatting like the Go code does
for a non-bool default. -/
def rWriteSignature (t : TranspilerBase) (p : Program) : TranspilerBase :=
  let params := p.parameters.map
    (fun param =>
      match param.default with
      | none => param.name
      | some d =>
        if param.type = "string" ∨ param.type = "character" then
          param.name ++ (" = \"" ++ (d ++ "\""))
        else param.name ++ (" = " ++ d))
  let t := writeLine t (p.name ++ (" <- function(" ++ (String.intercalate ",\n" params ++ ") \x7b")))
  setIndentLevel t (getIndentLevel t + 1)

/-- transpiler_r.go `validateStringType`. -/
def rValidateStringType (t : TranspilerBase) (param : Parameter) : Except String TranspilerBase :=
  let nm := param.name
  let t := writeLine t ("if (!is.character(" ++ (nm ++ (") || length(" ++ (nm ++ ") != 1) \x7b"))))
  let t := setIndentLevel t (getIndentLevel t + 1)
  let t := writeLine t ("stop(\"" ++ (nm ++ " must be a single character string\")"))
  let t := setIndentLevel t (getIndentLevel t - 1)
  .ok (writeLine t "\x7d")

/-- transpiler_r.go `validateNumberType`. -/
def rValidateNumberType (t : TranspilerBase) (param : Parameter) : Except String TranspilerBase :=
  let nm := param.name
  let t := writeLine t ("if (!is.numeric(" ++ (nm ++ (") || length(" ++ (nm ++ ") != 1) \x7b"))))
  let t := setIndentLevel t (getIndentLevel t + 1)
  let t := writeLine t ("stop(\"" ++ (nm ++ " must be a single numeric value\")"))
  let t := setIndentLevel t (getIndentLevel t - 1)
  .ok (writeLine t "\x7d")

/-- transpiler_r.go `validateIntegerType`. -/
def rValidateIntegerType (t : TranspilerBase) (param : Parameter) : Except String TranspilerBase :=
  let nm := param.name
  let t := writeLine t ("if (!is.numeric(" ++ (nm ++ (") || length(" ++ (nm ++ (") != 1 || " ++ (nm ++ (" != round(" ++ (nm ++ ")) \x7b"))))))))
  let t := setIndentLevel t (getIndentLevel t + 1)
  let t := writeLine t ("stop(\"" ++ (nm ++ " must be a single integer value\")"))
  let t := setIndentLevel t (getIndentLevel t - 1)
  .ok (writeLine t "\x7d")

/-- transpiler_r.go `validateCharacterType`. -/
def rValidateCharacterType (t : TranspilerBase) (param : Parameter) : Except String TranspilerBase :=
  let nm := param.name
  let t := writeLine t ("if (!is.character(" ++ (nm ++ (") || length(" ++ (nm ++ (") != 1 || nchar(" ++ (nm ++ ") != 1) \x7b"))))))
  let t := setIndentLevel t (getIndentLevel t + 1)
  let t := writeLine t ("stop(\"" ++ (nm ++ " must be a single character\")"))
  let t := setIndentLevel t (getIndentLevel t - 1)
  .ok (writeLine t "\x7d")

/-- transpiler_r.go `validateBooleanType`. -/
def rValidateBooleanType (t : TranspilerBase) (param : Parameter) : Except String TranspilerBase :=
  let nm := param.name
  let t := writeLine t ("if (!is.logical(" ++ (nm ++ (") || length(" ++ (nm ++ ") != 1) \x7b"))))
  let t := setIndentLevel t (getIndentLevel t + 1)
  let t := writeLine t ("stop(\"" ++ (nm ++ " must be a single logical value (TRUE/FALSE)\")"))
  let t := setIndentLevel t (getIndentLevel t - 1)
  .ok (writeLine t "\x7d")

/-- transpiler_r.go `validateEnumType`: an enum parameter with no collected
constraint values is a generation error. -/
def rValidateEnumType (t : TranspilerBase) (param : Parameter) : Except String TranspilerBase :=
  if param.constraints.length = 0 then
    .error "enum type requires constraints with allowed values"
  else
    let nm := param.name
    let constraints := param.constraints.map (fun c => "\"" ++ (c ++ "\""))
    let t := writeLine t ("valid_" ++ (nm ++ (" <- c(" ++ (String.intercalate ", " constraints ++ ")"))))
    let t := writeLine t ("if (!is.character(" ++ (nm ++ (") || length(" ++ (nm ++ (") != 1 || !(" ++ (nm ++ (" %in% valid_" ++ (nm ++ ")) \x7b"))))))))
    let t := setIndentLevel t (getIndentLevel t + 1)
    let t := writeLine t ("stop(paste0(\"" ++ (nm ++ (" must be one of: \", paste(valid_" ++ (nm ++ ", collapse=\", \")))"))))
    let t := setIndentLevel t (getIndentLevel t - 1)
    .ok (writeLine t "\x7d")

/-- transpiler_r.go `validateFileType` (delegates to the string
validator). -/
def rValidateFileType (t : TranspilerBase) (param : Parameter) : Except String TranspilerBase :=
  rValidateStringType t param

/-- transpiler_r.go `validateDirectoryType` (delegates to the string
validator). -/
def rValidateDirectoryType (t : TranspilerBase) (param : Parameter) : Except String TranspilerBase :=
  rValidateStringType t param

/-- The validator map `NewRTranspiler` registers, as a lookup by parameter
type name. -/
def rValidator (typeName : String) : Option (TranspilerBase → Parameter → Except String TranspilerBase) :=
  if typeName = TypeString then some rValidateStringType
  else if typeName = TypeNumber then some rValidateNumberType
  else if typeName = TypeInteger then some rValidateIntegerType
  else if typeName = TypeBoolean then some rValidateBooleanType
  else if typeName = TypeEnum then some rValidateEnumType
  else if typeName = TypeFile then some rValidateFileType
  else if typeName = TypeDirectory then some rValidateDirectoryType
  else if typeName = TypeCharacter then some rValidateCharacterType
  else none

/-- transpiler_r.go `writeTypeValidation`: parameters with defaults are
skipped, an unknown type gets a no-op comment, a validator error is wrapped
with the parameter name. -/
def rWriteTypeValidation (t : TranspilerBase) (params : List Parameter) : Except String TranspilerBase :=
  if params.length = 0 then .ok t
  else
    let t := writeLine t "# Type validation"
    params.foldl
      (fun acc param =>
        match acc with
        | .error e => .error e
        | .ok t =>
          if param.default.isSome then .ok t
          else
            match rValidator param.type with
            | none => .ok (writeLine t ("# No specific validation for type '" ++ (param.type ++ "'")))
            | some validator =>
              match validator t param with
              | .error e => .error ("error validating parameter '" ++ (param.name ++ ("': " ++ e)))
              | .ok t => .ok t)
      (.ok t)

/-- transpiler_r.go `writeSecurityChecks`, first loop (path-traversal checks
for string/file/directory parameters, with the one-time header). -/
def rSecurityPathChecks (t : TranspilerBase) (params : List Parameter) : TranspilerBase :=
  (params.foldl
    (fun (acc : TranspilerBase × Bool) param =>
      let (t, fileParams) := acc
      if param.type = "string" ∨ param.type = "file" ∨ param.type = "directory" then
        let t := if ¬fileParams then
            let t := writeLine t ""
            writeLine t "# Security checks"
          else t
        let t := writeLine t ("if (grepl(\"\\\\.\\\\./|\\\\.\\\\\\\\|\\\\/\\\\.\\\\./|\\\\\\\\\\\\.\\\\\\\\\\\\.\\\\\\\\\", " ++ (param.name ++ ")) \x7b"))
        let t := setIndentLevel t (getIndentLevel t + 1)
        let t := writeLine t ("stop(\"Path traversal detected in " ++ (param.name ++ "\")"))
        let t := setIndentLevel t (getIndentLevel t - 1)
        (writeLine t "\x7d", true)
      else (t, fileParams))
    (t, false)).1

/-- transpiler_r.go `writeSecurityChecks`, second loop (file/directory
existence checks). -/
def rSecurityExistChecks (t : TranspilerBase) (params : List Parameter) : TranspilerBase :=
  params.foldl
    (fun t param =>
      if param.type = "file" then
        let t := writeLine t ""
        let t := writeLine t "# Check if file exists"
        let t := writeLine t "if (!rrundocker::is_running_in_docker()) \x7b"
        let t := setIndentLevel t (getIndentLevel t + 1)
        let t := writeLine t ("if (!file.exists(" ++ (param.name ++ ")) \x7b"))
        let t := setIndentLevel t (getIndentLevel t + 1)
        let t := writeLine t ("stop(paste(\"" ++ (param.name ++ (":\", " ++ (param.name ++ ", \"does not exist\"))"))))
        let t := setIndentLevel t (getIndentLevel t - 1)
        let t := writeLine t "\x7d"
        let t := setIndentLevel t (getIndentLevel t - 1)
        writeLine t "\x7d"
      else if param.type = "directory" then
        let t := writeLine t ""
        let t := writeLine t "# Check if directory exists"
        let t := writeLine t "if (!rrundocker::is_running_in_docker()) \x7b"
        let t := setIndentLevel t (getIndentLevel t + 1)
        let t := writeLine t ("if (!dir.exists(" ++ (param.name ++ ")) \x7b"))
        let t := setIndentLevel t (getIndentLevel t + 1)
        let t := writeLine t ("stop(paste(\"" ++ (param.name ++ (":\", " ++ (param.name ++ ", \"does not exist\"))"))))
        let t := setIndentLevel t (getIndentLevel t - 1)
        let t := writeLine t "\x7d"
        let t := setIndentLevel t (getIndentLevel t - 1)
        writeLine t "\x7d"
      else t)
    t

/-- transpiler_r.go `writeSecurityChecks`. -/
def rWriteSecurityChecks (t : TranspilerBase) (params : List Parameter) : TranspilerBase :=
  rSecurityExistChecks (rSecurityPathChecks t params) params

end Baryon

namespace Baryon

/-- transpiler_r.go `handleDockerImplementation`, volume emission. -/
def rEmitVolumes (t : TranspilerBase) (impl : ImplementationBlock) (p : Program) : TranspilerBase :=
  match impl.fields.lookup "volumes" with
  | some (.pairs volumes) =>
    if volumes.length > 0 then
      let t := writeLine t "volumes = list("
      let t := setIndentLevel t (getIndentLevel t + 1)
      let t := volumes.foldl
        (fun t v =>
          let src := v.1
          let dst := v.2
          if isParamReference src p.parameters then
            writeLine t ("c(" ++ (src ++ ("_dir, \"" ++ (dst ++ "\"),"))))
          else if src = "parent-folder" ∨ src = "parent_folder" then
            writeLine t ("c(main_mount_dir, \"" ++ (dst ++ "\"),"))
          else
            writeLine t ("c(\"" ++ (src ++ ("\", \"" ++ (dst ++ "\"),"))))) t
      let t := setIndentLevel t (getIndentLevel t - 1)
      writeLine t "),"
    else
      let t := writeLine t "volumes = list("
      let t := setIndentLevel t (getIndentLevel t + 1)
      let t := writeLine t "c(main_mount_dir, \"/data\")"
      let t := setIndentLevel t (getIndentLevel t - 1)
      writeLine t "),"
  | _ =>
    let t := writeLine t "volumes = list("
    let t := setIndentLevel t (getIndentLevel t + 1)
    let t := writeLine t "c(main_mount_dir, \"/data\")"
    let t := setIndentLevel t (getIndentLevel t - 1)
    writeLine t "),"

/-- transpiler_r.go `handleDockerImplementation`, environment emission
(`Fields["env"].([]any)`: only a pairs-shaped value passes the type
assertion). -/
def rEmitEnv (t : TranspilerBase) (impl : ImplementationBlock) (p : Program) : TranspilerBase :=
  match impl.fields.lookup "env" with
  | some (.pairs env) =>
    if env.length > 0 then
      let t := writeLine t "env = c("
      let t := setIndentLevel t (getIndentLevel t + 1)
      let t := env.foldl
        (fun t ev =>
          let key := ev.1
          let val := ev.2
          if isParamReference val p.parameters then
            writeLine t ("\"" ++ (key ++ ("\" = " ++ (val ++ ","))))
          else
            writeLine t ("\"" ++ (key ++ ("\" = \"" ++ (val ++ "\","))))) t
      let t := setIndentLevel t (getIndentLevel t - 1)
      writeLine t "),"
    else t
  | _ => t

/-- transpiler_r.go `handleDockerImplementation`, argument emission. -/
def rEmitArgs (t : TranspilerBase) (impl : ImplementationBlock) (p : Program)
    (fileParams : List String) : TranspilerBase :=
  match impl.fields.lookup "arguments" with
  | some (.list args) =>
    if args.length > 0 then
      let t := writeLine t "additional_arguments = c("
      let t := setIndentLevel t (getIndentLevel t + 1)
      let t := args.foldl
        (fun t argStr =>
          if argStr = "_" then t
          else if isParamReference argStr p.parameters then
            let paramType := getParamType argStr p.parameters
            if paramType = "file" ∨ (paramType = "string" ∧ fileParams.contains argStr) then
              writeLine t (argStr ++ "_filename,")
            else if paramType = "number" ∨ paramType = "integer" then
              writeLine t ("as.character(" ++ (argStr ++ "),"))
            else if paramType = "boolean" then
              writeLine t ("if(" ++ (argStr ++ ") \"--true-flag\" else character(0),"))
            else
              writeLine t (argStr ++ ",")
          else if argStr.startsWith "\"" ∨ argStr.startsWith (String.singleton (Char.ofNat 39)) then
            writeLine t (argStr ++ ",")
          else
            writeLine t ("\"" ++ (argStr ++ "\","))) t
      let t := setIndentLevel t (getIndentLevel t - 1)
      writeLine t ")"
    else t
  | _ => t

/-- transpiler_r.go `handleDockerImplementation`: fails when the `image`
field is absent, not a string, or empty; otherwise emits the container
invocation. -/
def rHandleDockerImplementation (t : TranspilerBase) (impl : ImplementationBlock) (p : Program)
    : Except String TranspilerBase :=
  let imageOk : Option String :=
    match impl.fields.lookup "image" with
    | some (.str s) => if s = "" then none else some s
    | _ => none
  match imageOk with
  | none => .error "Docker image not specified or invalid"
  | some image =>
    let t := writeLine t ""
    let t := writeLine t "# Process file paths for Docker volume mounting"
    let fileParams := identifyFileParameters p.parameters
    let t :=
      if fileParams.length > 0 then
        let t := fileParams.foldl
          (fun t param =>
            let t := writeLine t ("# Process " ++ (param ++ " for Docker"))
            let t := writeLine t (param ++ ("_abspath <- normalizePath(" ++ (param ++ ", mustWork = FALSE)")))
            let t := writeLine t (param ++ ("_dir <- dirname(" ++ (param ++ "_abspath)")))
            writeLine t (param ++ ("_filename <- basename(" ++ (param ++ ")")))) t
        let t := writeLine t ""
        let t := writeLine t "# Main volume mount point"
        writeLine t ("main_mount_dir <- " ++ ((fileParams.headD "") ++ "_dir"))
      else
        let t := writeLine t "# No file parameters found, using current directory"
        writeLine t "main_mount_dir <- normalizePath(getwd(), mustWork = FALSE)"
    let t := writeLine t ""
    let t := writeLine t "# Execute Docker container with error handling"
    let t := writeLine t "tryCatch(\x7b"
    let t := setIndentLevel t (getIndentLevel t + 1)
    let t := writeLine t "result <- rrundocker::run_in_docker("
    let t := setIndentLevel t (getIndentLevel t + 1)
    let t := writeLine t ("image_name = \"" ++ (image ++ "\","))
    let t := rEmitVolumes t impl p
    let t := rEmitEnv t impl p
    let t := rEmitArgs t impl p fileParams
    let t := setIndentLevel t (getIndentLevel t - 1)
    let t := writeLine t ")"
    let t := writeLine t ""
    let t := writeLine t "# Process result"
    let t := writeLine t "return(list("
    let t := setIndentLevel t (getIndentLevel t + 1)
    let t := writeLine t "status = \"success\","
    let t := writeLine t ("output_dir = file.path(main_mount_dir, \"" ++ (p.name ++ "_results\")"))
    let t := setIndentLevel t (getIndentLevel t - 1)
    let t := writeLine t "))"
    let t := setIndentLevel t (getIndentLevel t - 1)
    let t := writeLine t "\x7d, error = function(e) \x7b"
    let t := setIndentLevel t (getIndentLevel t + 1)
    let t := writeLine t "stop(paste(\"Docker execution failed:\", e$message))"
    let t := setIndentLevel t (getIndentLevel t - 1)
    .ok (writeLine t "\x7d)")

/-- The implementation-handler map `NewRTranspiler` registers (only
`run_docker`). -/
def rHandler (name : String)
    : Option (TranspilerBase → ImplementationBlock → Program → Except String TranspilerBase) :=
  if name = "run_docker" then some rHandleDockerImplementation else none

/-- transpiler_r.go `processImplementations`: the deliberate
no-implementation fallback, and per-block handler dispatch where a missing
handler is fatal. -/
def rProcessImplementations (t : TranspilerBase) (p : Program) : Except String TranspilerBase :=
  if p.implementations.length = 0 then
    let t := writeLine t ""
    let t := writeLine t "# No implementation blocks found"
    .ok (writeLine t "stop(\"No implementation defined for this function\")")
  else
    p.implementations.foldl
      (fun acc impl =>
        match acc with
        | .error e => .error e
        | .ok t =>
          match rHandler impl.name with
          | none => .error ("no handler registered for implementation type '" ++ (impl.name ++ "'"))
          | some handler =>
            match handler t impl p with
            | .error e => .error ("error processing '" ++ (impl.name ++ ("' implementation: " ++ e)))
            | .ok t => .ok t)
      (.ok t)

/-- transpiler_r.go `RTranspiler.Transpile`: buffer reset, documentation,
signature, type validation, security checks, implementations, closing
brace. -/
def rTranspile (p : Program) (t0 : TranspilerBase) : Except String String :=
  let t := { t0 with buffer := "" }
  let t := rWriteDocumentation t p
  let t := rWriteSignature t p
  match rWriteTypeValidation t p.parameters with
  | .error e => .error ("error generating type validation: " ++ e)
  | .ok t =>
    let t := rWriteSecurityChecks t p.parameters
    match rProcessImplementations t p with
    | .error e => .error ("error processing implementations: " ++ e)
    | .ok t =>
      let t := writeLine t "\x7d"
      .ok t.buffer

/-- transpiler_r.go `NewRTranspiler`: a fresh instance (empty buffer,
indentation level 0; the handler/validator registrations are `rHandler` and
`rValidator`). -/
def newRTranspiler : TranspilerBase := {}

end Baryon

namespace Baryon

/-! ## The Python backend (internal/transpiler, `PythonTranspiler`) -/

/-- transpiler `PythonTranspiler.writeHeader`. -/
def pyWriteHeader (t : TranspilerBase) : TranspilerBase :=
  let t := writeLine t "#!/usr/bin/env python3"
  let t := writeLine t ""
  let t := writeLine t "import os"
  let t := writeLine t "import sys"
  let t := writeLine t "import re"
  let t := writeLine t "import subprocess"
  let t := writeLine t "import pathlib"
  let t := writeLine t "import logging"
  let t := writeLine t "from typing import Dict, List, Any, Optional, Union"
  let t := writeLine t "from dataclasses import dataclass"
  let t := writeLine t ""
  let t := writeLine t "# Configure logging"
  let t := writeLine t "logger = logging.getLogger(__name__)"
  writeLine t ""

/-- transpiler `PythonTranspiler.writeUtilityFunctions`. -/
def pyWriteUtilityFunctions (t : TranspilerBase) : TranspilerBase :=
  let t := writeLine t "@dataclass"
  let t := writeLine t "class Result:"
  let t := setIndentLevel t (getIndentLevel t + 1)
  let t := writeLine t "status: str"
  let t := writeLine t "output_dir: str"
  let t := writeLine t "message: str = \"\""
  let t := setIndentLevel t (getIndentLevel t - 1)
  let t := writeLine t ""
  let t := writeLine t "def validate_path(path: str) -> str:"
  let t := setIndentLevel t (getIndentLevel t + 1)
  let t := writeLine t "\"\"\"Validate and normalize a file path.\"\"\""
  let t := writeLine t "if not path:"
  let t := setIndentLevel t (getIndentLevel t + 1)
  let t := writeLine t "raise ValueError(\"Path cannot be empty\")"
  let t := setIndentLevel t (getIndentLevel t - 1)
  let t := writeLine t "return os.path.abspath(os.path.expanduser(path))"
  let t := setIndentLevel t (getIndentLevel t - 1)
  let t := writeLine t ""
  let t := writeLine t "def is_running_in_docker() -> bool:"
  let t := setIndentLevel t (getIndentLevel t + 1)
  let t := writeLine t "\"\"\"Check if we're running inside a Docker container.\"\"\""
  let t := writeLine t "return os.path.exists('/.dockerenv')"
  let t := setIndentLevel t (getIndentLevel t - 1)
  let t := writeLine t ""
  let t := writeLine t "def run_docker(image: str, volumes: Dict[str, str], env: Dict[str, str], args: List[str]) -> str:"
  let t := setIndentLevel t (getIndentLevel t + 1)
  let t := writeLine t "\"\"\"Run a Docker container with specified parameters.\"\"\""
  let t := writeLine t "cmd = ['docker', 'run', '--rm']"
  let t := writeLine t ""
  let t := writeLine t "for src, dst in volumes.items():"
  let t := setIndentLevel t (getIndentLevel t + 1)
  let t := writeLine t "cmd.extend(['-v', f\"\x7bsrc\x7d:\x7bdst\x7d\"])"
  let t := setIndentLevel t (getIndentLevel t - 1)
  let t := writeLine t ""
  let t := writeLine t "for key, val in env.items():"
  let t := setIndentLevel t (getIndentLevel t + 1)
  let t := writeLine t "cmd.extend(['-e', f\"\x7bkey\x7d=\x7bval\x7d\"])"
  let t := setIndentLevel t (getIndentLevel t - 1)
  let t := writeLine t ""
  let t := writeLine t "cmd.append(image)"
  let t := writeLine t "cmd.extend(args)"
  let t := writeLine t ""
  let t := writeLine t "logger.info(f\"Running Docker command: \x7b' '.join(cmd)\x7d\")"
  let t := writeLine t "result = subprocess.run(cmd, capture_output=True, text=True, check=False)"
  let t := writeLine t ""
  let t := writeLine t "if result.returncode != 0:"
  let t := setIndentLevel t (getIndentLevel t + 1)
  let t := writeLine t "logger.error(f\"Docker execution failed: \x7bresult.stderr\x7d\")"
  let t := writeLine t "raise RuntimeError(f\"Docker execution failed: \x7bresult.stderr\x7d\")"
  let t := setIndentLevel t (getIndentLevel t - 1)
  let t := writeLine t ""
  let t := writeLine t "return result.stdout"
  let t := setIndentLevel t (getIndentLevel t - 1)
  writeLine t ""

/-- transpiler `PythonTranspiler.formatParameterList`. -/
def pyFormatParameterList (params : List Parameter) : String :=
  if params.length = 0 then ""
  else
    String.intercalate ", " (params.map
      (fun param =>
        let tyAnn :=
          if param.type = "string" then "str"
          else if param.type = "number" then "float"
          else if param.type = "integer" then "int"
          else if param.type = "boolean" then "bool"
          else if param.type = "file" ∨ param.type = "directory" then "str"
          else if param.type = "character" then "str"
          else if param.type = "enum" then "str"
          else "Any"
        let paramStr := param.name ++ (": " ++ tyAnn)
        match param.default with
        | none => paramStr
        | some d =>
          if param.type = "string" ∨ param.type = "file" ∨ param.type = "directory" ∨
              param.type = "character" ∨ param.type = "enum" then
            paramStr ++ (" = \"" ++ (d ++ "\""))
          else paramStr ++ (" = " ++ d)))

/-- transpiler `PythonTranspiler.writeFunctionHeader`. -/
def pyWriteFunctionHeader (t : TranspilerBase) (p : Program) : TranspilerBase :=
  let t := writeLine t ("def " ++ (p.name ++ ("(" ++ (pyFormatParameterList p.parameters ++ ") -> Result:"))))
  let t := setIndentLevel t (getIndentLevel t + 1)
  let t := writeLine t "\"\"\""
  let t := if p.description ≠ "" then
      let t := writeLine t (formatDescription p.description)
      writeLine t ""
    else t
  let t :=
    if p.parameters.length > 0 then
      let t := writeLine t "Parameters:"
      let t := p.parameters.foldl
        (fun t param =>
          let desc := if param.description = "" then
              "Parameter of type '" ++ (param.type ++ "'")
            else param.description
          let desc := if param.type = "enum" ∧ param.constraints.length > 0 then
              desc ++ (" (allowed values: " ++ (String.intercalate ", " param.constraints ++ ")"))
            else desc
          writeLine t ("    " ++ (param.name ++ (": " ++ formatDescription desc)))) t
      writeLine t ""
    else t
  let returnDesc := (p.metadata.lookup "return").getD "Results of the operation"
  let t := writeLine t "Returns:"
  let t := writeLine t ("    Result: " ++ formatDescription returnDesc)
  writeLine t "\"\"\""

/-- transpiler `PythonTranspiler.validateStringType`. -/
def pyValidateStringType (t : TranspilerBase) (param : Parameter) : Except String TranspilerBase :=
  let nm := param.name
  let t := writeLine t ("if not isinstance(" ++ (nm ++ ", str):"))
  let t := setIndentLevel t (getIndentLevel t + 1)
  let t := writeLine t ("raise TypeError(f\"" ++ (nm ++ (" must be a string, got \x7btype(" ++ (nm ++ ").__name__\x7d\")"))))
  let t := setIndentLevel t (getIndentLevel t - 1)
  .ok t

/-- transpiler `PythonTranspiler.validateNumberType`. -/
def pyValidateNumberType (t : TranspilerBase) (param : Parameter) : Except String TranspilerBase :=
  let nm := param.name
  let t := writeLine t ("if not isinstance(" ++ (nm ++ (", (int, float)) or isinstance(" ++ (nm ++ ", bool):"))))
  let t := setIndentLevel t (getIndentLevel t + 1)
  let t := writeLine t ("raise TypeError(f\"" ++ (nm ++ (" must be a number, got \x7btype(" ++ (nm ++ ").__name__\x7d\")"))))
  let t := setIndentLevel t (getIndentLevel t - 1)
  .ok t

/-- transpiler `PythonTranspiler.validateIntegerType`. -/
def pyValidateIntegerType (t : TranspilerBase) (param : Parameter) : Except String TranspilerBase :=
  let nm := param.name
  let t := writeLine t ("if not isinstance(" ++ (nm ++ (", int) or isinstance(" ++ (nm ++ ", bool):"))))
  let t := setIndentLevel t (getIndentLevel t + 1)
  let t := writeLine t ("raise TypeError(f\"" ++ (nm ++ (" must be an integer, got \x7btype(" ++ (nm ++ ").__name__\x7d\")"))))
  let t := setIndentLevel t (getIndentLevel t - 1)
  .ok t

/-- transpiler `PythonTranspiler.validateBooleanType`. -/
def pyValidateBooleanType (t : TranspilerBase) (param : Parameter) : Except String TranspilerBase :=
  let nm := param.name
  let t := writeLine t ("if not isinstance(" ++ (nm ++ ", bool):"))
  let t := setIndentLevel t (getIndentLevel t + 1)
  let t := writeLine t ("raise TypeError(f\"" ++ (nm ++ (" must be a boolean, got \x7btype(" ++ (nm ++ ").__name__\x7d\")"))))
  let t := setIndentLevel t (getIndentLevel t - 1)
  .ok t

/-- Go's `%q` on the parser-built constraint strings (simple double-quote
wrapping; none of the claims' inputs need escape rewriting). -/
def quoteVerb (s : String) : String := "\"" ++ (s ++ "\"")

/-- transpiler `PythonTranspiler.validateEnumType`: rejects an enum with no
collected values, otherwise emits the membership check. -/
def pyValidateEnumType (t : TranspilerBase) (param : Parameter) : Except String TranspilerBase :=
  if param.constraints.length = 0 then
    .error "enum type requires constraints with allowed values"
  else
    let nm := param.name
    let values := param.constraints.map quoteVerb
    let t := writeLine t (nm ++ ("_valid_values = [" ++ (String.intercalate ", " values ++ "]")))
    match pyValidateStringType t param with
    | .error e => .error e
    | .ok t =>
      let t := writeLine t ("if " ++ (nm ++ (" not in " ++ (nm ++ "_valid_values:"))))
      let t := setIndentLevel t (getIndentLevel t + 1)
      let t := writeLine t ("raise ValueError(f\"" ++ (nm ++ (" must be one of \x7b" ++ (nm ++ "_valid_values\x7d\")"))))
      let t := setIndentLevel t (getIndentLevel t - 1)
      .ok t

/-- transpiler `PythonTranspiler.validateFileType`. -/
def pyValidateFileType (t : TranspilerBase) (param : Parameter) : Except String TranspilerBase :=
  match pyValidateStringType t param with
  | .error e => .error e
  | .ok t =>
    let nm := param.name
    .ok (writeLine t (nm ++ ("_path = validate_path(" ++ (nm ++ ")"))))

/-- transpiler `PythonTranspiler.validateDirectoryType`. -/
def pyValidateDirectoryType (t : TranspilerBase) (param : Parameter) : Except String TranspilerBase :=
  pyValidateFileType t param

/-- transpiler `PythonTranspiler.validateCharacterType`. -/
def pyValidateCharacterType (t : TranspilerBase) (param : Parameter) : Except String TranspilerBase :=
  pyValidateStringType t param

/-- The validator map `NewPythonTranspiler` registers. -/
def pyValidator (typeName : String) : Option (TranspilerBase → Parameter → Except String TranspilerBase) :=
  if typeName = TypeString then some pyValidateStringType
  else if typeName = TypeNumber then some pyValidateNumberType
  else if typeName = TypeInteger then some pyValidateIntegerType
  else if typeName = TypeBoolean then some pyValidateBooleanType
  else if typeName = TypeEnum then some pyValidateEnumType
  else if typeName = TypeFile then some pyValidateFileType
  else if typeName = TypeDirectory then some pyValidateDirectoryType
  else if typeName = TypeCharacter then some pyValidateCharacterType
  else none

/-- transpiler `PythonTranspiler.writeTypeValidation`. -/
def pyWriteTypeValidation (t : TranspilerBase) (params : List Parameter) : Except String TranspilerBase :=
  if params.length = 0 then .ok t
  else
    let t := writeLine t "# Parameter validation"
    params.foldl
      (fun acc param =>
        match acc with
        | .error e => .error e
        | .ok t =>
          if param.default.isSome then .ok t
          else
            match pyValidator param.type with
            | none => .ok (writeLine t ("# No specific validation for type '" ++ (param.type ++ "'")))
            | some validator =>
              match validator t param with
              | .error e => .error ("error validating parameter '" ++ (param.name ++ ("': " ++ e)))
              | .ok t => .ok t)
      (.ok t)

/-- transpiler `PythonTranspiler.writeSecurityChecks`. -/
def pyWriteSecurityChecks (t : TranspilerBase) (params : List Parameter) : TranspilerBase :=
  (params.foldl
    (fun (acc : TranspilerBase × Bool) param =>
      let (t, fileParams) := acc
      if param.type = "file" then
        let t := if ¬fileParams then
            let t := writeLine t ""
            writeLine t "# File existence checks"
          else t
        let t := writeLine t "if not is_running_in_docker():"
        let t := setIndentLevel t (getIndentLevel t + 1)
        let t := writeLine t ("if not os.path.isfile(" ++ (param.name ++ "_path):"))
        let t := setIndentLevel t (getIndentLevel t + 1)
        let t := writeLine t ("raise FileNotFoundError(f\"File \x7b" ++ (param.name ++ "_path\x7d does not exist\")"))
        let t := setIndentLevel t (getIndentLevel t - 1)
        (setIndentLevel t (getIndentLevel t - 1), true)
      else if param.type = "directory" then
        let t := if ¬fileParams then
            let t := writeLine t ""
            writeLine t "# Directory existence checks"
          else t
        let t := writeLine t "if not is_running_in_docker():"
        let t := setIndentLevel t (getIndentLevel t + 1)
        let t := writeLine t ("if not os.path.isdir(" ++ (param.name ++ "_path):"))
        let t := setIndentLevel t (getIndentLevel t + 1)
        let t := writeLine t ("raise NotADirectoryError(f\"Directory \x7b" ++ (param.name ++ "_path\x7d does not exist\")"))
        let t := setIndentLevel t (getIndentLevel t - 1)
        (setIndentLevel t (getIndentLevel t - 1), true)
      else (t, fileParams))
    (t, false)).1

end Baryon

namespace Baryon

/-- transpiler `PythonTranspiler.handleDockerImplementation`, volume
preparation. -/
def pyEmitVolumes (t : TranspilerBase) (impl : ImplementationBlock) (p : Program) : TranspilerBase :=
  let t := writeLine t "# Prepare Docker volumes"
  let t := writeLine t "volumes = \x7b\x7d"
  match impl.fields.lookup "volumes" with
  | some (.pairs volumes) =>
    if volumes.length > 0 then
      volumes.foldl
        (fun t v =>
          let src := v.1
          let dst := v.2
          if isParamReference src p.parameters then
            writeLine t ("volumes[" ++ (src ++ ("_dir] = \"" ++ (dst ++ "\""))))
          else if src = "parent-folder" ∨ src = "parent_folder" then
            writeLine t ("volumes[main_mount_dir] = \"" ++ (dst ++ "\""))
          else
            writeLine t ("volumes[\"" ++ (src ++ ("\"] = \"" ++ (dst ++ "\""))))) t
    else writeLine t "volumes[main_mount_dir] = \"/data\""
  | _ => writeLine t "volumes[main_mount_dir] = \"/data\""

/-- transpiler `PythonTranspiler.handleDockerImplementation`, environment
preparation. -/
def pyEmitEnv (t : TranspilerBase) (impl : ImplementationBlock) (p : Program) : TranspilerBase :=
  let t := writeLine t ""
  let t := writeLine t "# Prepare environment variables"
  let t := writeLine t "env_vars = \x7b\x7d"
  match impl.fields.lookup "env" with
  | some (.pairs env) =>
    if env.length > 0 then
      env.foldl
        (fun t ev =>
          let key := ev.1
          let val := ev.2
          if isParamReference val p.parameters then
            writeLine t ("env_vars[\"" ++ (key ++ ("\"] = str(" ++ (val ++ ")"))))
          else
            writeLine t ("env_vars[\"" ++ (key ++ ("\"] = \"" ++ (val ++ "\""))))) t
    else t
  | _ => t

/-- transpiler `PythonTranspiler.handleDockerImplementation`, argument
preparation. -/
def pyEmitArgs (t : TranspilerBase) (impl : ImplementationBlock) (p : Program)
    (fileParams : List String) : TranspilerBase :=
  let t := writeLine t ""
  let t := writeLine t "# Prepare Docker arguments"
  let t := writeLine t "docker_args = []"
  match impl.fields.lookup "arguments" with
  | some (.list args) =>
    if args.length > 0 then
      args.foldl
        (fun t argStr =>
          if argStr = "_" then t
          else if isParamReference argStr p.parameters then
            let paramType := getParamType argStr p.parameters
            if paramType = "file" ∨ (paramType = "string" ∧ fileParams.contains argStr) then
              writeLine t ("docker_args.append(" ++ (argStr ++ "_filename)"))
            else if paramType = "boolean" then
              let t := writeLine t ("if " ++ (argStr ++ ":"))
              let t := setIndentLevel t (getIndentLevel t + 1)
              let t := writeLine t "docker_args.append(\"--true-flag\")"
              setIndentLevel t (getIndentLevel t - 1)
            else
              writeLine t ("docker_args.append(str(" ++ (argStr ++ "))"))
          else if argStr.startsWith "\"" ∨ argStr.startsWith (String.singleton (Char.ofNat 39)) then
            writeLine t ("docker_args.append(" ++ (argStr ++ ")"))
          else
            writeLine t ("docker_args.append(\"" ++ (argStr ++ "\")"))) t
    else t
  | _ => t

/-- transpiler `PythonTranspiler.handleDockerImplementation`. -/
def pyHandleDockerImplementation (t : TranspilerBase) (impl : ImplementationBlock) (p : Program)
    : Except String TranspilerBase :=
  let imageOk : Option String :=
    match impl.fields.lookup "image" with
    | some (.str s) => if s = "" then none else some s
    | _ => none
  match imageOk with
  | none => .error "Docker image not specified or invalid"
  | some image =>
    let t := writeLine t ""
    let t := writeLine t "# Process file paths for Docker volume mounting"
    let fileParams := identifyFileParameters p.parameters
    let t :=
      if fileParams.length > 0 then
        let t := fileParams.foldl
          (fun t param =>
            let t := writeLine t ("# Process " ++ (param ++ " for Docker"))
            let t := writeLine t (param ++ ("_abspath = os.path.abspath(" ++ (param ++ ("_path if '" ++ (param ++ ("_path' in locals() else " ++ (param ++ ")")))))))
            let t := writeLine t (param ++ ("_dir = os.path.dirname(" ++ (param ++ "_abspath)")))
            writeLine t (param ++ ("_filename = os.path.basename(" ++ (param ++ ")")))) t
        let t := writeLine t ""
        let t := writeLine t "# Main volume mount point"
        writeLine t ("main_mount_dir = " ++ ((fileParams.headD "") ++ "_dir"))
      else
        let t := writeLine t "# No file parameters found, using current directory"
        writeLine t "main_mount_dir = os.path.abspath(os.getcwd())"
    let t := writeLine t ""
    let t := writeLine t "# Execute Docker container with error handling"
    let t := writeLine t "try:"
    let t := setIndentLevel t (getIndentLevel t + 1)
    let t := pyEmitVolumes t impl p
    let t := pyEmitEnv t impl p
    let t := pyEmitArgs t impl p fileParams
    let t := writeLine t ""
    let t := writeLine t "# Run Docker container"
    let t := writeLine t ("run_docker(\"" ++ (image ++ "\", volumes, env_vars, docker_args)"))
    let t := writeLine t ""
    let t := writeLine t "# Create results directory"
    let t := writeLine t ("output_dir = os.path.join(main_mount_dir, \"" ++ (p.name ++ "_results\")"))
    let t := writeLine t "os.makedirs(output_dir, exist_ok=True)"
    let t := writeLine t ""
    let t := writeLine t "return Result(status=\"success\", output_dir=output_dir)"
    let t := setIndentLevel t (getIndentLevel t - 1)
    let t := writeLine t "except Exception as e:"
    let t := setIndentLevel t (getIndentLevel t + 1)
    let t := writeLine t "logger.error(f\"Docker execution failed: \x7bstr(e)\x7d\")"
    let t := writeLine t "return Result(status=\"error\", output_dir=\"\", message=str(e))"
    .ok (setIndentLevel t (getIndentLevel t - 1))

/-- The implementation-handler map `NewPythonTranspiler` registers (only
`run_docker`). -/
def pyHandler (name : String)
    : Option (TranspilerBase → ImplementationBlock → Program → Except String TranspilerBase) :=
  if name = "run_docker" then some pyHandleDockerImplementation else none

/-- transpiler `PythonTranspiler.processImplementations`. -/
def pyProcessImplementations (t : TranspilerBase) (p : Program) : Except String TranspilerBase :=
  if p.implementations.length = 0 then
    let t := writeLine t ""
    let t := writeLine t "# No implementation blocks found"
    .ok (writeLine t "raise NotImplementedError(\"No implementation defined for this function\")")
  else
    p.implementations.foldl
      (fun acc impl =>
        match acc with
        | .error e => .error e
        | .ok t =>
          match pyHandler impl.name with
          | none => .error ("no handler registered for implementation type '" ++ (impl.name ++ "'"))
          | some handler =>
            match handler t impl p with
            | .error e => .error ("error processing '" ++ (impl.name ++ ("' implementation: " ++ e)))
            | .ok t => .ok t)
      (.ok t)

/-- transpiler `PythonTranspiler.writeEntryPoint`. -/
def pyWriteEntryPoint (t : TranspilerBase) (p : Program) : TranspilerBase :=
  let t := writeLine t ""
  let t := writeLine t ""
  let t := writeLine t "if __name__ == \"__main__\":"
  let t := setIndentLevel t (getIndentLevel t + 1)
  let t := writeLine t "import argparse"
  let t := writeLine t ""
  let t := writeLine t ("parser = argparse.ArgumentParser(description=\"" ++ (formatDescription p.description ++ "\")"))
  let t := p.parameters.foldl
    (fun t param =>
      let argName := "--" ++ param.name
      let helpText := if param.description = "" then
          "Parameter of type '" ++ (param.type ++ "'")
        else param.description
      if param.type = "boolean" then
        writeLine t ("parser.add_argument('" ++ (argName ++ ("', action='store_true', help=\"" ++ (helpText ++ "\")"))))
      else if param.type = "enum" then
        if param.constraints.length > 0 then
          let choicesStr := String.intercalate ", " (param.constraints.map (fun c => "\"" ++ (c ++ "\"")))
          writeLine t ("parser.add_argument('" ++ (argName ++ ("', choices=[" ++ (choicesStr ++ ("], help=\"" ++ (helpText ++ "\")"))))))
        else
          writeLine t ("parser.add_argument('" ++ (argName ++ ("', help=\"" ++ (helpText ++ "\")"))))
      else
        writeLine t ("parser.add_argument('" ++ (argName ++ ("', help=\"" ++ (helpText ++ "\")"))))) t
  let t := writeLine t ""
  let t := writeLine t "args = parser.parse_args()"
  let t := writeLine t ""
  let t := writeLine t ("result = " ++ (p.name ++ "("))
  let t := setIndentLevel t (getIndentLevel t + 1)
  let t := p.parameters.foldl
    (fun t param => writeLine t (param.name ++ ("=args." ++ (param.name ++ ",")))) t
  let t := setIndentLevel t (getIndentLevel t - 1)
  let t := writeLine t ")"
  let t := writeLine t ""
  let t := writeLine t "print(f\"Status: \x7bresult.status\x7d\")"
  let t := writeLine t "if result.status == \"success\":"
  let t := setIndentLevel t (getIndentLevel t + 1)
  let t := writeLine t "print(f\"Output directory: \x7bresult.output_dir\x7d\")"
  let t := setIndentLevel t (getIndentLevel t - 1)
  let t := writeLine t "else:"
  let t := setIndentLevel t (getIndentLevel t + 1)
  let t := writeLine t "print(f\"Error: \x7bresult.message\x7d\")"
  let t := writeLine t "sys.exit(1)"
  let t := setIndentLevel t (getIndentLevel t - 1)
  setIndentLevel t (getIndentLevel t - 1)

/-- transpiler `PythonTranspiler.Transpile`. -/
def pyTranspile (p : Program) (t0 : TranspilerBase) : Except String String :=
  let t := { t0 with buffer := "" }
  let t := pyWriteHeader t
  let t := pyWriteUtilityFunctions t
  let t := pyWriteFunctionHeader t p
  match pyWriteTypeValidation t p.parameters with
  | .error e => .error ("error generating type validation: " ++ e)
  | .ok t =>
    let t := pyWriteSecurityChecks t p.parameters
    match pyProcessImplementations t p with
    | .error e => .error ("error processing implementations: " ++ e)
    | .ok t =>
      let t := setIndentLevel t 0
      let t := pyWriteEntryPoint t p
      .ok t.buffer

/-- transpiler `NewPythonTranspiler`: a fresh instance (see
`newRTranspiler`). -/
def newPythonTranspiler : TranspilerBase := {}

end Baryon

namespace Baryon

/-! ## The Nextflow backend (internal/transpiler/transpiler_nextflow.go) -/

/-- transpiler_nextflow.go `writeWorkflowHeader`. -/
def nfWriteWorkflowHeader (t : TranspilerBase) (p : Program) : TranspilerBase :=
  let t := writeLine t ("// Nextflow Workflow: " ++ p.name)
  let t := if p.description ≠ "" then
      let desc := formatDescription p.description
      writeLine t ("// " ++ (desc.replace "\n" "\n// "))
    else t
  writeLine t ""

/-- transpiler_nextflow.go `writeParameters`.  The `boolean` case's Go call
`WriteLine("params.%s = s", param.Name, defaultStr)` passes a stray extra
argument; the fmt `%!(EXTRA …)` diagnostic it appends after the newline is
omitted here (it affects no claim). -/
def nfWriteParameters (t : TranspilerBase) (params : List Parameter) : TranspilerBase :=
  let t := writeLine t "// Input Parameters"
  let t := params.foldl
    (fun t param =>
      let defaultStr := match param.default with
        | some d => " = " ++ d
        | none => ""
      if param.type = TypeString ∨ param.type = TypeFile ∨ param.type = TypeDirectory then
        writeLine t ("params." ++ (param.name ++ (" = '" ++ (defaultStr ++ "'"))))
      else if param.type = TypeNumber ∨ param.type = TypeInteger then
        writeLine t ("params." ++ (param.name ++ (" = " ++ defaultStr)))
      else if param.type = TypeBoolean then
        writeLine t ("params." ++ (param.name ++ " = s"))
      else if param.type = TypeEnum then
        if param.constraints.length > 0 then
          let choicesStr := String.intercalate ", " (param.constraints.map (fun c => "\"" ++ (c ++ "\"")))
          let t := writeLine t ("// Allowed values: " ++ choicesStr)
          writeLine t ("params." ++ (param.name ++ (" = ''" ++ defaultStr)))
        else t
      else if param.type = TypeCharacter then
        writeLine t ("params." ++ (param.name ++ (" = ''" ++ defaultStr)))
      else t) t
  writeLine t ""

/-- transpiler_nextflow.go `handleDockerImplementation`. -/
def nfHandleDockerImplementation (t : TranspilerBase) (impl : ImplementationBlock) (p : Program)
    : Except String TranspilerBase :=
  let imageOk : Option String :=
    match impl.fields.lookup "image" with
    | some (.str s) => if s = "" then none else some s
    | _ => none
  match imageOk with
  | none => .error "Docker image not specified or invalid"
  | some image =>
    let t := writeLine t ""
    let t := writeLine t ("process " ++ (impl.name ++ " \x7b"))
    let t := setIndentLevel t (getIndentLevel t + 1)
    let t := writeLine t ("container '" ++ (image ++ "'"))
    let t := writeLine t "input:"
    let t := p.parameters.foldl (fun t param => writeLine t ("val params." ++ param.name)) t
    let t := writeLine t "output:"
    let t := writeLine t "path 'results/'"
    let t := writeLine t "script:"
    let t := setIndentLevel t (getIndentLevel t + 1)
    let t := writeLine t "def args = ["
    let t := match impl.fields.lookup "arguments" with
      | some (.list args) =>
        args.foldl
          (fun t argStr =>
            if isParamReference argStr p.parameters then
              writeLine t ("params." ++ (argStr ++ ","))
            else writeLine t ("'" ++ (argStr ++ "',"))) t
      | _ => t
    let t := writeLine t "].join(' ')"
    let t := writeLine t ("sh 'docker run --rm " ++ (image ++ " $args'"))
    let t := setIndentLevel t (getIndentLevel t - 1)
    let t := setIndentLevel t (getIndentLevel t - 1)
    .ok (writeLine t "\x7d")

/-- The implementation-handler map `NewNextflowTranspiler` registers (only
`run_docker`). -/
def nfHandler (name : String)
    : Option (TranspilerBase → ImplementationBlock → Program → Except String TranspilerBase) :=
  if name = "run_docker" then some nfHandleDockerImplementation else none

/-- transpiler_nextflow.go `processImplementations` (note the error message
lacks the word "type": `"no handler registered for implementation '%s'"`). -/
def nfProcessImplementations (t : TranspilerBase) (p : Program) : Except String TranspilerBase :=
  if p.implementations.length = 0 then
    let t := writeLine t "// No implementation blocks found"
    .ok (writeLine t "throw new Exception('No implementation defined for this workflow')")
  else
    p.implementations.foldl
      (fun acc impl =>
        match acc with
        | .error e => .error e
        | .ok t =>
          match nfHandler impl.name with
          | none => .error ("no handler registered for implementation '" ++ (impl.name ++ "'"))
          | some handler =>
            match handler t impl p with
            | .error e => .error ("error in implementation '" ++ (impl.name ++ ("': " ++ e)))
            | .ok t => .ok t)
      (.ok t)

/-- transpiler_nextflow.go `writeWorkflow`. -/
def nfWriteWorkflow (t : TranspilerBase) (p : Program) : TranspilerBase :=
  let t := writeLine t "workflow \x7b"
  let t := setIndentLevel t (getIndentLevel t + 1)
  let t := p.implementations.foldl (fun t impl => writeLine t (impl.name ++ "()")) t
  let t := setIndentLevel t (getIndentLevel t - 1)
  writeLine t "\x7d"

/-- transpiler_nextflow.go `NextflowTranspiler.Transpile`. -/
def nfTranspile (p : Program) (t0 : TranspilerBase) : Except String String :=
  let t := { t0 with buffer := "" }
  let t := nfWriteWorkflowHeader t p
  let t := nfWriteParameters t p.parameters
  match nfProcessImplementations t p with
  | .error e => .error ("error processing implementations: " ++ e)
  | .ok t =>
    let t := nfWriteWorkflow t p
    .ok t.buffer

/-- transpiler_nextflow.go `NewNextflowTranspiler`: a fresh instance. -/
def newNextflowTranspiler : TranspilerBase := {}

/-! ## The Galaxy backend (the `GalaxyTranspiler` in
internal/transpiler/transpiler_r.go: no implementation handlers are
registered — the `run_docker` registration is commented out — and the
handler loop in `Transpile` skips any block whose kind has no handler). -/

/-- internal/galaxy `Option` (value and canonical name). -/
structure GalaxyOption where
  value : String
  canonicalName : String
deriving DecidableEq, Repr

/-- internal/galaxy `Param`, the fields this backend sets. -/
structure GalaxyParam where
  type : String
  name : String
  value : String := ""
  label : String := ""
  options : List GalaxyOption := []
  refreshOnChange : Bool := false
deriving DecidableEq, Repr

/-- internal/galaxy `Tool`, the fields this backend sets (`Requirements` and
`Outputs` stay empty). -/
structure GalaxyTool where
  id : String
  name : String
  description : String
  command : Option String := none
  inputs : List GalaxyParam := []
deriving DecidableEq, Repr

/-- transpiler/utils.go `galaxyTypeValidators`: the sixteen Galaxy input
types registered with `validateGenericType`. -/
def galaxyValidatorNames : List String :=
  ["text", "integer", "float", "boolean", "genomebuild", "select", "color", "data_column",
   "hidden", "hidden_data", "baseurl", "file", "ftpfile", "data", "data_collection", "drill_down"]

/-- `NewGalaxyTranspiler`'s `typeValidatorAlias` map (Baryon type name →
Galaxy input type). -/
def galaxyAlias (ty : String) : Option String :=
  if ty = TypeString then some "text"
  else if ty = TypeCharacter then some "text"
  else if ty = TypeNumber then some "float"
  else if ty = TypeInteger then some "integer"
  else if ty = TypeBoolean then some "boolean"
  else if ty = TypeFile then some "file"
  else if ty = TypeDirectory then some "data_collection"
  else none

/-- Which validator the Galaxy backend's finished registration map holds for
a type name: `enum` gets `validateEnumType`; an alias overrides (the aliases
that collide with a Galaxy type name map it to itself, so the overwrite is
the identity); the sixteen Galaxy names get `validateGenericType` of
themselves; anything else has no validator. -/
inductive GalaxyValidator where
  | generic (galaxyType : String)
  | enumV
deriving DecidableEq, Repr

/-- See `GalaxyValidator`. -/
def galaxyValidatorFor (ty : String) : Option GalaxyValidator :=
  if ty = TypeEnum then some .enumV
  else
    match galaxyAlias ty with
    | some g => some (.generic g)
    | none => if galaxyValidatorNames.contains ty then some (.generic ty) else none

/-- `GalaxyTranspiler.validateGenericType` / `validateEnumType`: both append
to `galaxyTool.Inputs.Param`; the enum validator fails on an enum with no
collected constraint values. -/
def galaxyApplyValidator (v : GalaxyValidator) (inputs : List GalaxyParam) (param : Parameter)
    : Except String (List GalaxyParam) :=
  match v with
  | .generic g =>
    .ok (inputs ++ [{ type := g, name := param.name, value := defaultVerb param.default,
                      label := param.description, refreshOnChange := false }])
  | .enumV =>
    if param.constraints.length = 0 then
      .error ("enum type '" ++ (param.name ++ "' must have at least one constraint"))
    else
      let opts := param.constraints.map (fun o => GalaxyOption.mk o o)
      .ok (inputs ++ [{ type := "select", name := param.name, label := param.description,
                        options := opts, value := (param.constraints.headD "") }])

/-- `GalaxyTranspiler.writeTypeValidation`: parameters with defaults are
skipped; a type with no registered validator is fatal for this backend. -/
def galaxyWriteTypeValidation (params : List Parameter) : Except String (List GalaxyParam) :=
  if params.length = 0 then .ok []
  else
    params.foldl
      (fun acc param =>
        match acc with
        | .error e => .error e
        | .ok inputs =>
          if param.default.isSome then .ok inputs
          else
            match galaxyValidatorFor param.type with
            | none => .error ("no validator registered for type '" ++ (param.type ++ "'"))
            | some v =>
              match galaxyApplyValidator v inputs param with
              | .error e => .error ("error validating parameter '" ++ (param.name ++ ("': " ++ e)))
              | .ok inputs => .ok inputs)
      (.ok [])

/-- A minimal XML attribute-value escape (stands in for encoding/xml,
which is Go standard library, not repository code). -/
def xmlEscape (s : String) : String :=
  ((s.replace "&" "&amp;").replace "<" "&lt;").replace "\"" "&quot;"

/-- Stands in for Go's `xml.MarshalIndent` on the `galaxy.Tool` structure:
a total, deterministic rendering of the fields the backend sets.  It never
fails (`xml.MarshalIndent` cannot fail on this type). -/
def galaxyMarshalIndent (tool : GalaxyTool) : String :=
  let optXml := fun (o : GalaxyOption) => String.join
    ["      <option value=\"", xmlEscape o.value, "\">", xmlEscape o.canonicalName, "</option>\n"]
  let paramXml := tool.inputs.map
    (fun p => String.join
      ["    <param type=\"", xmlEscape p.type, "\" name=\"", xmlEscape p.name,
       "\" value=\"", xmlEscape p.value, "\" label=\"", xmlEscape p.label, "\">\n",
       String.join (p.options.map optXml), "    </param>\n"])
  let commandXml := match tool.command with
    | some c => String.join ["  <command><![CDATA[", c, "]]></command>\n"]
    | none => ""
  String.join
    ["<tool id=\"", xmlEscape tool.id, "\" name=\"", xmlEscape tool.name, "\">\n",
     "  <description>", xmlEscape tool.description, "</description>\n",
     "  <requirements></requirements>\n", commandXml,
     "  <inputs>\n", String.join paramXml, "  </inputs>\n",
     "  <outputs></outputs>\n", "</tool>"]

/-- Go `xml.Header`. -/
def xmlHeader : String := "<?xml version=\"1.0\" encoding=\"UTF-8\"?>\n"

/-- `GalaxyTranspiler.Transpile` (transpiler_r.go version): builds a fresh
`galaxy.Tool`, runs the type validators, sets the no-implementation fallback
command, then walks the implementation blocks skipping any whose kind has no
registered handler — and `NewGalaxyTranspiler` registers none — and marshals
the tool.  The instance's `TranspilerBase` state is never read or written. -/
def galaxyTranspile (p : Program) (_t0 : TranspilerBase) : Except String String :=
  match galaxyWriteTypeValidation p.parameters with
  | .error e => .error ("error writing type validation: " ++ e)
  | .ok inputs =>
    let command : Option String :=
      if p.implementations.length = 0 then some "echo 'No implementations provided'" else none
    let tool : GalaxyTool :=
      { id := p.name, name := p.name, description := p.description,
        command := command, inputs := inputs }
    .ok (xmlHeader ++ galaxyMarshalIndent tool)

/-- `NewGalaxyTranspiler`: a fresh instance (no implementation handlers are
registered). -/
def newGalaxyTranspiler : TranspilerBase := {}

end Baryon

namespace Baryon

/-! ## Statement-level definitions used to formalise the claims -/

/-- The spec's minimal-valid-program scenario input. -/
def minimalScenarioInput : String :=
  "(bala myprog ( (desc \"A test program\") (run_docker (image \"ubuntu:latest\") (command \"echo hello\")) (param1 string (desc \"A string param\")) (outputs (output.txt txt ./workdir/output.txt)) ) )"

/-- The spec's enum-parameter scenario input. -/
def enumScenarioInput : String :=
  "(bala myprog ( (param1 (enum (\"A\" \"B\" \"C\")) (desc \"enum param\")) ) )"

/-- An identifier leaf node (position 0,0 — parameter parsing never reads
positions). -/
def identLeaf (s : String) : SExpr := .mk ⟨.identifier, s, 0, 0⟩ []

/-- A string-literal leaf node. -/
def strLeaf (s : String) : SExpr := .mk ⟨.string, s, 0, 0⟩ []

/-- An interior node introduced by an opening parenthesis. -/
def listNode (cs : List SExpr) : SExpr := .mk ⟨.lparen, "(", 0, 0⟩ cs

/-- The `(name enum ("v1" "v2" …))` parameter shape. -/
def enumFlatNode (name : String) (vals : List String) : SExpr :=
  listNode [identLeaf name, identLeaf "enum", listNode (vals.map strLeaf)]

/-- The `(name (enum ("v1" "v2" …)))` parameter shape. -/
def enumNestedNode (name : String) (vals : List String) : SExpr :=
  listNode [identLeaf name, listNode [identLeaf "enum", listNode (vals.map strLeaf)]]

/-- "End of input is reached while an opening parenthesis is still
unclosed": scanning the tokens after the first `(` with `n` parentheses
currently open (`n ≥ 1`), the token stream ends, or reaches its end-of-input
token, before the running balance returns to zero. -/
def unclosedFrom : List Token → Nat → Bool
  | [], _ => true
  | t :: ts, n =>
    if t.type = TokenType.eof then true
    else if t.type = TokenType.lparen then unclosedFrom ts (n + 1)
    else if t.type = TokenType.rparen then
      (if n ≤ 1 then false else unclosedFrom ts (n - 1))
    else unclosedFrom ts n

/-- The exact message `parseSExprNode` produces when end of input is reached
inside an open parenthesis, with the line/column carried by `addError` (the
same association of appends as `mkParseError`). -/
def missingParenMsg (line column : Nat) : String :=
  "Line " ++ toString line ++ ", Column " ++ toString column ++
    ": " ++ "missing closing parenthesis in S-expression"

/-- An unterminated string literal: after the opening quote no closing `"`
appears, and no NUL byte (the lexer's end-of-input sentinel) intervenes. -/
def noStrTerm (cs : List Char) : Prop :=
  ('"' ∉ cs) ∧ (nullChar ∉ cs)

instance (cs : List Char) : Decidable (noStrTerm cs) := by
  unfold noStrTerm
  infer_instance

end Baryon

namespace Baryon

/-! ## Helper lemmas -/

theorem token_mk (t : Token) (cs : List SExpr) : (SExpr.mk t cs).token = t := rfl

theorem children_mk (t : Token) (cs : List SExpr) : (SExpr.mk t cs).children = cs := rfl

theorem strLeaf_token (s : String) : (strLeaf s).token = ⟨.string, s, 0, 0⟩ := rfl

theorem strLeaf_children (s : String) : (strLeaf s).children = [] := rfl

theorem identLeaf_token (s : String) : (identLeaf s).token = ⟨.identifier, s, 0, 0⟩ := rfl

theorem identLeaf_children (s : String) : (identLeaf s).children = [] := rfl

theorem listNode_token (cs : List SExpr) : (listNode cs).token = ⟨.lparen, "(", 0, 0⟩ := rfl

theorem listNode_children (cs : List SExpr) : (listNode cs).children = cs := rfl

theorem strLeaf_filterMap_comp (vs : List String) :
    List.filterMap
      ((fun v => if v.token.type = TokenType.string then some v.token.literal else none) ∘ strLeaf)
      vs = vs := by
  induction vs with
  | nil => rfl
  | cons v vs ih => simp [Function.comp, strLeaf_token, ih]

theorem processBodyStep_metadata (errTok : Token) (acc : Program × List String) (child : SExpr) :
    ((processBodyStep errTok acc child).1).metadata = acc.1.metadata := by
  unfold processBodyStep
  dsimp only
  repeat' split
  all_goals rfl

theorem processBody_metadata (errTok : Token) (children : List SExpr) :
    ∀ (prog : Program) (errs : List String),
      ((processBody errTok children prog errs).1).metadata = prog.metadata := by
  induction children with
  | nil => intro prog errs; rfl
  | cons c cs ih =>
    intro prog errs
    simp only [processBody, List.foldl_cons]
    have h2 := ih (processBodyStep errTok (prog, errs) c).1 (processBodyStep errTok (prog, errs) c).2
    simp only [processBody] at h2
    rw [Prod.mk.eta] at h2
    rw [h2, processBodyStep_metadata]

theorem parse_progress (fuel : Nat) :
    (∀ ts res rest, parseSExprNodeF fuel ts = .ok (res, rest) → rest.length < ts.length ∨ ts = []) ∧
    (∀ ts res rest, parseChildrenF fuel ts = .ok (res, rest) → rest.length < ts.length) := by
  induction fuel with
  | zero =>
    constructor <;> intro ts res rest h <;>
      simp [parseSExprNodeF, parseChildrenF] at h
  | succ fuel ih =>
    obtain ⟨ihN, ihC⟩ := ih
    constructor
    · intro ts res rest h
      unfold parseSExprNodeF at h
      split at h
      · rename_i hlp
        split at h
        · exact absurd h (by simp)
        · rename_i children rest' heq
          simp only [Except.ok.injEq, Prod.mk.injEq] at h
          obtain ⟨-, hrest⟩ := h
          subst hrest
          have hlt := ihC ts.tail _ _ heq
          have hne : ts ≠ [] := by
            intro hnil
            subst hnil
            simp [cur, eofToken] at hlp
          left
          cases ts with
          | nil => exact absurd rfl hne
          | cons t ts' => simp only [List.tail_cons] at hlt; simp; omega
      · simp only [Except.ok.injEq, Prod.mk.injEq] at h
        obtain ⟨-, hrest⟩ := h
        subst hrest
        cases ts with
        | nil => right; rfl
        | cons t ts' => left; simp
    · intro ts res rest h
      unfold parseChildrenF at h
      split at h
      · rename_i hrp
        simp only [Except.ok.injEq, Prod.mk.injEq] at h
        obtain ⟨-, hrest⟩ := h
        subst hrest
        have hne : ts ≠ [] := by
          intro hnil; subst hnil; simp [cur, eofToken] at hrp
        cases ts with
        | nil => exact absurd rfl hne
        | cons t ts' => simp
      · rename_i hnrp
        split at h
        · exact absurd h (by simp)
        · rename_i hneof
          split at h
          · rename_i hlp
            split at h
            · exact absurd h (by simp)
            · rename_i child rest1 heq1
              split at h
              · exact absurd h (by simp)
              · rename_i children rest2 heq2
                simp only [Except.ok.injEq, Prod.mk.injEq] at h
                obtain ⟨-, hrest⟩ := h
                subst hrest
                have h1 := ihN ts _ _ heq1
                have h2 := ihC rest1 _ _ heq2
                have hne : ts ≠ [] := by
                  intro hnil; subst hnil; simp [cur, eofToken] at hlp
                rcases h1 with h1 | h1
                · omega
                · exact absurd h1 hne
          · rename_i hnlp
            split at h
            · exact absurd h (by simp)
            · rename_i children rest' heq
              simp only [Except.ok.injEq, Prod.mk.injEq] at h
              obtain ⟨-, hrest⟩ := h
              subst hrest
              have hlt := ihC ts.tail _ _ heq
              have hne : ts ≠ [] := by
                intro hnil
                subst hnil
                exact hneof (by simp [cur, eofToken])
              cases ts with
              | nil => exact absurd rfl hne
              | cons t ts' => simp only [List.tail_cons] at hlt; simp; omega

theorem parse_unclosed (fuel : Nat) :
    (∀ ts n, 1 ≤ n → 2 * ts.length + 2 ≤ fuel → unclosedFrom ts n = true →
      (∃ l c, parseChildrenF fuel ts = .error (missingParenMsg l c)) ∨
      (2 ≤ n ∧ ∃ ch rest, parseChildrenF fuel ts = .ok (ch, rest) ∧
        unclosedFrom rest (n - 1) = true)) ∧
    (∀ ts n, 1 ≤ n → 2 * ts.length + 1 ≤ fuel → (cur ts).type = TokenType.lparen →
      unclosedFrom ts.tail (n + 1) = true →
      (∃ l c, parseSExprNodeF fuel ts = .error (missingParenMsg l c)) ∨
      (∃ x rest, parseSExprNodeF fuel ts = .ok (x, rest) ∧ unclosedFrom rest n = true)) := by
  induction fuel with
  | zero =>
    constructor <;> intro ts n h1 h2 <;> omega
  | succ fuel ih =>
    obtain ⟨ihC, ihN⟩ := ih
    constructor
    · intro ts n hn hfuel hun
      unfold parseChildrenF
      split
      · rename_i hrp
        cases ts with
        | nil => simp [cur, eofToken] at hrp
        | cons t ts' =>
          simp only [cur, List.headD_cons] at hrp
          rw [unclosedFrom] at hun
          rw [if_neg (by simp [hrp]), if_neg (by simp [hrp]), if_pos hrp] at hun
          by_cases hn1 : n ≤ 1
          · rw [if_pos hn1] at hun; simp at hun
          · rw [if_neg hn1] at hun
            right
            exact ⟨by omega, [], ts', rfl, hun⟩
      · rename_i hnrp
        split
        · rename_i heof
          left
          exact ⟨(cur ts).line, (cur ts).column, rfl⟩
        · rename_i hneof
          split
          · rename_i hlp
            have hne : ts ≠ [] := by
              intro hnil; subst hnil; exact hneof (by simp [cur, eofToken])
            have htail : unclosedFrom ts.tail (n + 1) = true := by
              cases ts with
              | nil => exact absurd rfl hne
              | cons t ts' =>
                simp only [cur, List.headD_cons] at hlp
                rw [unclosedFrom] at hun
                rw [if_neg (by simp [hlp]), if_pos hlp] at hun
                exact hun
            have hnode := ihN ts n hn (by omega) hlp htail
            rcases hnode with ⟨l, c, herr⟩ | ⟨x, rest, hok, hunrest⟩
            · left; exact ⟨l, c, by rw [herr]⟩
            · have hrest_len : rest.length < ts.length := by
                rcases (parse_progress fuel).1 ts _ _ hok with hlt | hnil
                · exact hlt
                · exact absurd hnil hne
              have hchild := ihC rest n hn (by omega) hunrest
              rcases hchild with ⟨l, c, herr⟩ | ⟨hn2, ch, rest', hok2, hunrest'⟩
              · left; exact ⟨l, c, by simp only [hok, herr]⟩
              · right
                exact ⟨hn2, x :: ch, rest', by simp only [hok, hok2], hunrest'⟩
          · rename_i hnlp
            have hne : ts ≠ [] := by
              intro hnil; subst hnil; exact hneof (by simp [cur, eofToken])
            have htail : unclosedFrom ts.tail n = true := by
              cases ts with
              | nil => exact absurd rfl hne
              | cons t ts' =>
                simp only [cur, List.headD_cons] at hnrp hneof hnlp
                rw [unclosedFrom] at hun
                rw [if_neg hneof, if_neg hnlp, if_neg hnrp] at hun
                exact hun
            have hlen : ts.tail.length + 1 = ts.length := by
              cases ts with
              | nil => exact absurd rfl hne
              | cons t ts' => simp
            have hchild := ihC ts.tail n hn (by omega) htail
            rcases hchild with ⟨l, c, herr⟩ | ⟨hn2, ch, rest', hok2, hunrest'⟩
            · left; exact ⟨l, c, by rw [herr]⟩
            · right
              exact ⟨hn2, SExpr.mk (cur ts) [] :: ch, rest', by rw [hok2], hunrest'⟩
    · intro ts n hn hfuel hlp htail
      unfold parseSExprNodeF
      rw [if_pos hlp]
      have hne : ts ≠ [] := by
        intro hnil; subst hnil; simp [cur, eofToken] at hlp
      have hlen : ts.tail.length + 1 = ts.length := by
        cases ts with
        | nil => exact absurd rfl hne
        | cons t ts' => simp
      have hchild := ihC ts.tail (n + 1) (by omega) (by omega) htail
      rcases hchild with ⟨l, c, herr⟩ | ⟨hn2, ch, rest, hok, hunrest⟩
      · left; exact ⟨l, c, by rw [herr]⟩
      · right
        refine ⟨SExpr.mk (cur ts) ch, rest, by rw [hok], ?_⟩
        simpa using hunrest

theorem skipToLParen_append (pre : List Token) (lp : Token) (rest : List Token)
    (hpre : ∀ t ∈ pre, t.type ≠ TokenType.lparen ∧ t.type ≠ TokenType.eof)
    (hlp : lp.type = TokenType.lparen) :
    skipToLParen (pre ++ lp :: rest) = lp :: rest := by
  induction pre with
  | nil =>
    simp [skipToLParen, List.dropWhile_cons, hlp]
  | cons t pre' ih =>
    have ht := hpre t (by simp)
    have ih' := ih (fun u hu => hpre u (by simp [hu]))
    simp only [skipToLParen, List.cons_append, List.dropWhile_cons] at ih' ⊢
    rw [if_pos (by simp [ht.1, ht.2])]
    exact ih'

end Baryon

namespace Baryon

theorem charAt_ge_length (xs : List Char) (i : Nat) (h : xs.length ≤ i) : charAt xs i = nullChar := by
  simp [charAt, List.drop_eq_nil_of_le h]

theorem charAt_lt_of_ne_null (xs : List Char) (i : Nat) (h : charAt xs i ≠ nullChar) :
    i < xs.length := by
  by_contra hge
  exact h (charAt_ge_length xs i (by omega))

theorem mem_drop_of_charAt (xs : List Char) (i j : Nat) (hij : i ≤ j) (hj : j < xs.length) :
    charAt xs j ∈ xs.drop i := by
  have hmem : charAt xs j ∈ xs.drop j := by
    have hne : xs.drop j ≠ [] := by
      intro hnil
      rw [List.drop_eq_nil_iff] at hnil
      omega
    cases hd : xs.drop j with
    | nil => exact absurd hd hne
    | cons c cs => simp [charAt, hd]
  have hsub : xs.drop j = (xs.drop i).drop (j - i) := by
    rw [List.drop_drop]
    congr 1
    omega
  rw [hsub] at hmem
  exact List.mem_of_mem_drop hmem

theorem readCharCore_input (l : LexerState) : (readCharCore l).input = l.input := by
  simp only [readCharCore]
  split <;> rfl

theorem readCharCore_ch (l : LexerState) : (readCharCore l).ch = charAt l.input l.readPosition := by
  simp only [readCharCore]
  split <;> rfl

theorem readCharCore_position (l : LexerState) : (readCharCore l).position = l.readPosition := by
  simp only [readCharCore]
  split <;> rfl

theorem readCharCore_readPosition (l : LexerState) :
    (readCharCore l).readPosition = l.readPosition + 1 := by
  simp only [readCharCore]
  split <;> rfl

theorem readCharFix_input (s : Nat) (l : LexerState) : (readCharFix s l).input = l.input := by
  simp only [readCharFix]
  split <;> try rfl
  split <;> rfl

theorem readCharFix_ch (s : Nat) (l : LexerState) : (readCharFix s l).ch = l.ch := by
  simp only [readCharFix]
  split <;> try rfl
  split <;> rfl

theorem readCharFix_position (s : Nat) (l : LexerState) : (readCharFix s l).position = l.position := by
  simp only [readCharFix]
  split <;> try rfl
  split <;> rfl

theorem readCharFix_readPosition (s : Nat) (l : LexerState) :
    (readCharFix s l).readPosition = l.readPosition := by
  simp only [readCharFix]
  split <;> try rfl
  split <;> rfl

theorem readChar_fields (l : LexerState) (h : l.readPosition = l.position + 1) :
    (readChar l).input = l.input ∧
    (((readChar l).ch = charAt l.input (l.position + 1) ∧
      (readChar l).position = l.position + 1 ∧
      (readChar l).readPosition = l.position + 2 ∧
      ¬(charAt l.input (l.position + 1) = '\r' ∧ charAt l.input (l.position + 2) = '\n')) ∨
     ((readChar l).ch = '\n' ∧
      (readChar l).position = l.position + 2 ∧
      (readChar l).readPosition = l.position + 3 ∧
      charAt l.input (l.position + 1) = '\r' ∧ charAt l.input (l.position + 2) = '\n')) := by
  have hcore_ch : (readCharCore l).ch = charAt l.input (l.position + 1) := by
    rw [readCharCore_ch, h]
  have hpeek : peekChar (readCharCore l) = charAt l.input (l.position + 2) := by
    rw [peekChar, readCharCore_input, readCharCore_readPosition, h]
  have hstep : readChar l = readCharFix l.column
      (if (readCharCore l).ch = '\r' ∧ peekChar (readCharCore l) = '\n'
       then readCharF 1 (readCharCore l)
       else if (readCharCore l).ch = '\r'
       then { readCharCore l with line := (readCharCore l).line + 1, column := 0 }
       else readCharCore l) := rfl
  simp only [hcore_ch, hpeek] at hstep
  by_cases hc : charAt l.input (l.position + 1) = '\r' ∧ charAt l.input (l.position + 2) = '\n'
  · rw [if_pos hc] at hstep
    have hcore2_ch : (readCharCore (readCharCore l)).ch = '\n' := by
      rw [readCharCore_ch, readCharCore_input, readCharCore_readPosition, h]
      exact hc.2
    have hinner : readCharF 1 (readCharCore l) =
        readCharFix (readCharCore l).column (readCharCore (readCharCore l)) := by
      have hu : readCharF 1 (readCharCore l) = readCharFix (readCharCore l).column
          (if (readCharCore (readCharCore l)).ch = '\r' ∧
                peekChar (readCharCore (readCharCore l)) = '\n'
           then readCharF 0 (readCharCore (readCharCore l))
           else if (readCharCore (readCharCore l)).ch = '\r'
           then { readCharCore (readCharCore l) with
                    line := (readCharCore (readCharCore l)).line + 1, column := 0 }
           else readCharCore (readCharCore l)) := rfl
      rw [hu, if_neg (by rw [hcore2_ch]; simp), if_neg (by rw [hcore2_ch]; simp)]
    rw [hinner] at hstep
    refine ⟨?_, Or.inr ⟨?_, ?_, ?_, hc.1, hc.2⟩⟩ <;>
      rw [hstep] <;>
      simp [readCharFix_input, readCharFix_ch, readCharFix_position, readCharFix_readPosition,
        readCharCore_input, readCharCore_position, readCharCore_readPosition, hcore2_ch, h]
  · rw [if_neg hc] at hstep
    refine ⟨?_, Or.inl ⟨?_, ?_, ?_, hc⟩⟩ <;>
      rw [hstep] <;>
      simp only [readCharFix_input, readCharFix_ch, readCharFix_position, readCharFix_readPosition] <;>
      split <;>
      simp [readCharCore_input, readCharCore_ch, readCharCore_position, readCharCore_readPosition, h]

theorem noStrTerm_mono (xs : List Char) (i j : Nat) (hij : i ≤ j)
    (h : noStrTerm (xs.drop i)) : noStrTerm (xs.drop j) := by
  obtain ⟨h1, h2⟩ := h
  have hsub : xs.drop j = (xs.drop i).drop (j - i) := by
    rw [List.drop_drop]
    congr 1
    omega
  constructor
  · intro hm
    rw [hsub] at hm
    exact h1 (List.mem_of_mem_drop hm)
  · intro hm
    rw [hsub] at hm
    exact h2 (List.mem_of_mem_drop hm)

theorem noStrTerm_at (xs : List Char) (i j : Nat) (hij : i ≤ j) (hj : j < xs.length)
    (h : noStrTerm (xs.drop i)) : charAt xs j ≠ '"' ∧ charAt xs j ≠ nullChar := by
  have hm := mem_drop_of_charAt xs i j hij hj
  exact ⟨fun he => h.1 (he ▸ hm), fun he => h.2 (he ▸ hm)⟩

theorem readStringLoop_noquote (fuel : Nat) :
    ∀ (l : LexerState),
      l.readPosition = l.position + 1 →
      l.position < l.input.length →
      noStrTerm (l.input.drop (l.position + 1)) →
      l.input.length - l.position ≤ fuel →
      ((readStringLoop '"' fuel l).input = l.input ∧
       (readStringLoop '"' fuel l).position = l.input.length ∧
       (readStringLoop '"' fuel l).ch = nullChar) := by
  induction fuel with
  | zero =>
    intro l h1 h2 h3 h4
    omega
  | succ fuel ih =>
    intro l h1 h2 h3 h4
    obtain ⟨hinp, hfields⟩ := readChar_fields l h1
    rcases hfields with ⟨hch, hpos, hrp, -⟩ | ⟨hch, hpos, hrp, hcr, hlf⟩
    · by_cases hend : l.position + 1 < l.input.length
      · obtain ⟨hq, hn⟩ := noStrTerm_at l.input (l.position + 1) (l.position + 1) (le_refl _) hend h3
        have hpk : peekChar (readChar l) ≠ '"' := by
          rw [peekChar, hinp, hrp]
          by_cases hlt : l.position + 2 < l.input.length
          · exact (noStrTerm_at l.input (l.position + 1) (l.position + 2) (by omega) hlt h3).1
          · rw [charAt_ge_length l.input _ (by omega)]
            decide
        rw [readStringLoop]
        rw [if_neg (by rw [hch]; exact hq), if_neg (by rw [hch]; exact hn)]
        rw [if_neg (fun hand => hpk hand.2)]
        have hih := ih (readChar l)
          (by rw [hrp, hpos])
          (by rw [hpos, hinp]; exact hend)
          (by rw [hpos, hinp]; exact noStrTerm_mono l.input (l.position + 1) (l.position + 2) (by omega) h3)
          (by rw [hpos, hinp]; omega)
        rw [hinp] at hih
        exact hih
      · have hnull : (readChar l).ch = nullChar := by
          rw [hch, charAt_ge_length l.input _ (by omega)]
        rw [readStringLoop]
        rw [if_neg (by rw [hnull]; decide), if_pos hnull]
        refine ⟨hinp, ?_, hnull⟩
        rw [hpos]
        omega
    · -- a \r\n pair was consumed
      have hlen2 : l.position + 2 < l.input.length := by
        have := charAt_lt_of_ne_null l.input (l.position + 2) (by rw [hlf]; decide)
        omega
      rw [readStringLoop]
      rw [if_neg (by rw [hch]; decide), if_neg (by rw [hch]; decide)]
      rw [if_neg (fun hand => by rw [hch] at hand; exact absurd hand.1 (by decide))]
      have hih := ih (readChar l)
        (by rw [hrp, hpos])
        (by rw [hpos, hinp]; exact hlen2)
        (by rw [hpos, hinp]; exact noStrTerm_mono l.input (l.position + 1) (l.position + 3) (by omega) h3)
        (by rw [hpos, hinp]; omega)
      rw [hinp] at hih
      exact hih

theorem skipWhitespace_id (l : LexerState)
    (h : ¬(l.ch = ' ' ∨ l.ch = '\t' ∨ l.ch = '\n' ∨ l.ch = '\r')) :
    skipWhitespace l = l := by
  unfold skipWhitespace
  rw [skipWhitespaceF, if_neg h]

theorem readString_noquote (l : LexerState)
    (h1 : l.readPosition = l.position + 1)
    (h2 : l.position < l.input.length)
    (h3 : noStrTerm (l.input.drop (l.position + 1))) :
    (readString l '"').1 = ⟨l.input.drop (l.position + 1)⟩ ∧
    (readString l '"').2.ch = nullChar := by
  obtain ⟨hinp, hpos, hch⟩ :=
    readStringLoop_noquote (l.input.length + 2) l h1 h2 h3 (by omega)
  constructor
  · show sliceStr l.input (l.position + 1)
      (readStringLoop '"' (l.input.length + 2) l).position = _
    rw [hpos, sliceStr, List.take_length]
  · show (if (readStringLoop '"' (l.input.length + 2) l).ch = '"'
        then readChar (readStringLoop '"' (l.input.length + 2) l)
        else readStringLoop '"' (l.input.length + 2) l).ch = nullChar
    rw [if_neg (by rw [hch]; decide)]
    exact hch

theorem tokenizeLoop_eof (f : Nat) (l : LexerState) (h : l.ch = nullChar) :
    tokenizeLoop (f + 1) l = [⟨TokenType.eof, "", l.line, l.column⟩] := by
  rw [tokenizeLoop, skipWhitespace_id l (by rw [h]; decide)]
  simp only [h]
  rfl

end Baryon

namespace Baryon

/-! ## The claims -/

set_option maxRecDepth 100000 in
/-- Claim C1.  The spec's minimal scenario claims 1 parameter and 1 output,
and the repository's own parser test expects the same; but `sExprToAST`
dispatches body children only on `desc` and `run_docker`, with everything
else — including the `(outputs …)` form — parsed as a parameter, so the
minimal scenario input actually parses to TWO parameters (`param1` and a
parameter named `outputs`) and ZERO outputs.  This theorem evaluates the
embedded parser on that input, exhibiting the divergence. -/
theorem claim_C1_minimal_scenario :
    parseProgram minimalScenarioInput = .ok
      { name := "myprog", description := "A test program",
        parameters :=
          [{ name := "param1", description := "A string param", type := "string",
             constraints := [], default := none, metadata := [("desc", "A string param")] },
           { name := "outputs", description := "", type := "", constraints := [],
             default := none, metadata := [] }],
        implementations :=
          [{ name := "run_docker", description := "",
             fields := [("image", FieldValue.str "ubuntu:latest"),
                        ("command", FieldValue.str "echo hello")] }],
        metadata := [], outputs := [] } := by
  rfl

/-- Claim C2 (amended).  A `run_docker` implementation block whose field map
holds no usable `image` entry (absent, non-string, or the empty string)
makes the R, Python and Nextflow backends fail with an error naming the
missing Docker image — but not "regardless of backend": the Galaxy backend
registers no implementation handlers and succeeds (see
`claim_C2_galaxy_counterexample`). -/
theorem claim_C2_missing_docker_image (bdesc pname pdesc : String)
    (flds : List (String × FieldValue))
    (pmd : List (String × String)) (outs : List OutputBlock)
    (h : ∀ s, flds.lookup "image" = some (FieldValue.str s) → s = "") :
    rTranspile
      { name := pname, description := pdesc, parameters := [],
        implementations := [{ name := "run_docker", description := bdesc, fields := flds }],
        metadata := pmd, outputs := outs }
      newRTranspiler =
      .error ("error processing implementations: " ++
        ("error processing '" ++ ("run_docker" ++ ("' implementation: " ++
          "Docker image not specified or invalid")))) ∧
    pyTranspile
      { name := pname, description := pdesc, parameters := [],
        implementations := [{ name := "run_docker", description := bdesc, fields := flds }],
        metadata := pmd, outputs := outs }
      newPythonTranspiler =
      .error ("error processing implementations: " ++
        ("error processing '" ++ ("run_docker" ++ ("' implementation: " ++
          "Docker image not specified or invalid")))) ∧
    nfTranspile
      { name := pname, description := pdesc, parameters := [],
        implementations := [{ name := "run_docker", description := bdesc, fields := flds }],
        metadata := pmd, outputs := outs }
      newNextflowTranspiler =
      .error ("error processing implementations: " ++
        ("error in implementation '" ++ ("run_docker" ++ ("': " ++
          "Docker image not specified or invalid")))) := by
  refine ⟨?_, ?_, ?_⟩
  · simp only [rTranspile, rWriteTypeValidation, rProcessImplementations, rHandler,
      List.length_nil, List.length_cons, List.foldl_cons, List.foldl_nil]
    rcases hlk : flds.lookup "image" with _ | v
    · simp [rHandleDockerImplementation, hlk]
    · cases v with
      | str s =>
        have hs := h s hlk
        subst hs
        simp [rHandleDockerImplementation, hlk]
      | list xs => simp [rHandleDockerImplementation, hlk]
      | pairs ps => simp [rHandleDockerImplementation, hlk]
      | null => simp [rHandleDockerImplementation, hlk]
  · simp only [pyTranspile, pyWriteTypeValidation, pyProcessImplementations, pyHandler,
      List.length_nil, List.length_cons, List.foldl_cons, List.foldl_nil]
    rcases hlk : flds.lookup "image" with _ | v
    · simp [pyHandleDockerImplementation, hlk]
    · cases v with
      | str s =>
        have hs := h s hlk
        subst hs
        simp [pyHandleDockerImplementation, hlk]
      | list xs => simp [pyHandleDockerImplementation, hlk]
      | pairs ps => simp [pyHandleDockerImplementation, hlk]
      | null => simp [pyHandleDockerImplementation, hlk]
  · simp only [nfTranspile, nfProcessImplementations, nfHandler,
      List.length_nil, List.length_cons, List.foldl_cons, List.foldl_nil]
    rcases hlk : flds.lookup "image" with _ | v
    · simp [nfHandleDockerImplementation, hlk]
    · cases v with
      | str s =>
        have hs := h s hlk
        subst hs
        simp [nfHandleDockerImplementation, hlk]
      | list xs => simp [nfHandleDockerImplementation, hlk]
      | pairs ps => simp [nfHandleDockerImplementation, hlk]
      | null => simp [nfHandleDockerImplementation, hlk]

/-- Witness for C2: a concrete `run_docker` block with no fields at all. -/
theorem claim_C2_missing_docker_image_witness :
    rTranspile
      { name := "p", description := "", parameters := [],
        implementations := [{ name := "run_docker", description := "", fields := [] }],
        metadata := [], outputs := [] }
      newRTranspiler =
      .error ("error processing implementations: " ++
        ("error processing '" ++ ("run_docker" ++ ("' implementation: " ++
          "Docker image not specified or invalid")))) ∧
    pyTranspile
      { name := "p", description := "", parameters := [],
        implementations := [{ name := "run_docker", description := "", fields := [] }],
        metadata := [], outputs := [] }
      newPythonTranspiler =
      .error ("error processing implementations: " ++
        ("error processing '" ++ ("run_docker" ++ ("' implementation: " ++
          "Docker image not specified or invalid")))) ∧
    nfTranspile
      { name := "p", description := "", parameters := [],
        implementations := [{ name := "run_docker", description := "", fields := [] }],
        metadata := [], outputs := [] }
      newNextflowTranspiler =
      .error ("error processing implementations: " ++
        ("error in implementation '" ++ ("run_docker" ++ ("': " ++
          "Docker image not specified or invalid")))) :=
  claim_C2_missing_docker_image "" "p" "" [] [] [] (fun _ hs => nomatch hs)

/-- Counterexample to C2 as stated: the Galaxy backend succeeds on a
program whose sole `run_docker` block has no `image` field. -/
theorem claim_C2_galaxy_counterexample :
    ∃ out,
      galaxyTranspile
        { name := "p", description := "", parameters := [],
          implementations := [{ name := "run_docker", description := "", fields := [] }],
          metadata := [], outputs := [] }
        newGalaxyTranspiler = .ok out :=
  ⟨_, rfl⟩

end Baryon

namespace Baryon

/-- Claim C3 (amended).  An implementation block whose kind name has no
registered handler is fatal for the R and Python backends with exactly
`no handler registered for implementation type '<name>'`, and for the
Nextflow backend with `no handler registered for implementation '<name>'`
(its message lacks the word "type"); it is NOT fatal for the Galaxy
backend, which registers no handlers and silently skips every block (see
`claim_C3_galaxy_counterexample`). -/
theorem claim_C3_unregistered_handler (nm bdesc pname pdesc : String)
    (flds : List (String × FieldValue)) (pmd : List (String × String)) (outs : List OutputBlock)
    (h : nm ≠ "run_docker") :
    rTranspile
      { name := pname, description := pdesc, parameters := [],
        implementations := [{ name := nm, description := bdesc, fields := flds }],
        metadata := pmd, outputs := outs }
      newRTranspiler =
      .error ("error processing implementations: " ++
        ("no handler registered for implementation type '" ++ (nm ++ "'"))) ∧
    pyTranspile
      { name := pname, description := pdesc, parameters := [],
        implementations := [{ name := nm, description := bdesc, fields := flds }],
        metadata := pmd, outputs := outs }
      newPythonTranspiler =
      .error ("error processing implementations: " ++
        ("no handler registered for implementation type '" ++ (nm ++ "'"))) ∧
    nfTranspile
      { name := pname, description := pdesc, parameters := [],
        implementations := [{ name := nm, description := bdesc, fields := flds }],
        metadata := pmd, outputs := outs }
      newNextflowTranspiler =
      .error ("error processing implementations: " ++
        ("no handler registered for implementation '" ++ (nm ++ "'"))) := by
  refine ⟨?_, ?_, ?_⟩
  · simp [rTranspile, rWriteTypeValidation, rProcessImplementations, rHandler, h]
  · simp [pyTranspile, pyWriteTypeValidation, pyProcessImplementations, pyHandler, h]
  · simp [nfTranspile, nfProcessImplementations, nfHandler, h]

/-- Witness for C3: a concrete block of the unregistered kind `run_custom`. -/
theorem claim_C3_unregistered_handler_witness :
    rTranspile
      { name := "p", description := "", parameters := [],
        implementations := [{ name := "run_custom", description := "", fields := [] }],
        metadata := [], outputs := [] }
      newRTranspiler =
      .error ("error processing implementations: " ++
        ("no handler registered for implementation type '" ++ ("run_custom" ++ "'"))) ∧
    pyTranspile
      { name := "p", description := "", parameters := [],
        implementations := [{ name := "run_custom", description := "", fields := [] }],
        metadata := [], outputs := [] }
      newPythonTranspiler =
      .error ("error processing implementations: " ++
        ("no handler registered for implementation type '" ++ ("run_custom" ++ "'"))) ∧
    nfTranspile
      { name := "p", description := "", parameters := [],
        implementations := [{ name := "run_custom", description := "", fields := [] }],
        metadata := [], outputs := [] }
      newNextflowTranspiler =
      .error ("error processing implementations: " ++
        ("no handler registered for implementation '" ++ ("run_custom" ++ "'"))) :=
  claim_C3_unregistered_handler "run_custom" "" "p" "" [] [] [] (by decide)

/-- Counterexample to C3 as stated: the Galaxy backend succeeds on a
program whose sole implementation block has an unregistered kind, silently
skipping it. -/
theorem claim_C3_galaxy_counterexample :
    ∃ out,
      galaxyTranspile
        { name := "p", description := "", parameters := [],
          implementations := [{ name := "run_custom", description := "", fields := [] }],
          metadata := [], outputs := [] }
        newGalaxyTranspiler = .ok out :=
  ⟨_, rfl⟩

/-- Claim C4.  A parameter of type `enum` with no default and no collected
constraint values is rejected at generation by every backend whose enum
validator runs — R and Python with
`enum type requires constraints with allowed values`, Galaxy with
`enum type '<name>' must have at least one constraint` — each wrapped in
that backend's `error … type validation: error validating parameter
'<name>': …` context.  (The Nextflow backend runs no enum validator.) -/
theorem claim_C4_empty_enum_rejected (nm descr pname pdesc : String)
    (md pmd : List (String × String))
    (impls : List ImplementationBlock) (outs : List OutputBlock) :
    rTranspile
      { name := pname, description := pdesc,
        parameters := [{ name := nm, description := descr, type := "enum",
                         constraints := [], default := none, metadata := md }],
        implementations := impls, metadata := pmd, outputs := outs }
      newRTranspiler =
      .error ("error generating type validation: " ++
        ("error validating parameter '" ++ (nm ++ ("': " ++
          "enum type requires constraints with allowed values")))) ∧
    pyTranspile
      { name := pname, description := pdesc,
        parameters := [{ name := nm, description := descr, type := "enum",
                         constraints := [], default := none, metadata := md }],
        implementations := impls, metadata := pmd, outputs := outs }
      newPythonTranspiler =
      .error ("error generating type validation: " ++
        ("error validating parameter '" ++ (nm ++ ("': " ++
          "enum type requires constraints with allowed values")))) ∧
    galaxyTranspile
      { name := pname, description := pdesc,
        parameters := [{ name := nm, description := descr, type := "enum",
                         constraints := [], default := none, metadata := md }],
        implementations := impls, metadata := pmd, outputs := outs }
      newGalaxyTranspiler =
      .error ("error writing type validation: " ++
        ("error validating parameter '" ++ (nm ++ ("': " ++
          ("enum type '" ++ (nm ++ "' must have at least one constraint")))))) := by
  refine ⟨?_, ?_, ?_⟩
  · simp [rTranspile, rWriteTypeValidation, rValidator, rValidateEnumType,
      TypeString, TypeNumber, TypeInteger, TypeBoolean, TypeEnum, TypeFile,
      TypeDirectory, TypeCharacter]
  · simp [pyTranspile, pyWriteTypeValidation, pyValidator, pyValidateEnumType,
      TypeString, TypeNumber, TypeInteger, TypeBoolean, TypeEnum, TypeFile,
      TypeDirectory, TypeCharacter]
  · simp [galaxyTranspile, galaxyWriteTypeValidation, galaxyValidatorFor, galaxyAlias,
      galaxyApplyValidator, TypeString, TypeNumber, TypeInteger, TypeBoolean, TypeEnum,
      TypeFile, TypeDirectory, TypeCharacter]

end Baryon

namespace Baryon

/-- Claim C5.  Whenever the token stream reaches its end-of-input token
while an opening parenthesis is still unclosed (any prefix of
non-parenthesis tokens, then the `(` that `parseSExpr` skips to, then a
remainder whose running parenthesis balance never returns to zero before
end of input), `ParseProgram` fails with the fatal
`missing closing parenthesis in S-expression` error, formatted by
`addError` with a line and column. -/
theorem claim_C5_missing_closing_paren (input : String)
    (pre : List Token) (lp : Token) (rest : List Token)
    (hts : stripComments (tokenize input) = pre ++ lp :: rest)
    (hpre : ∀ t ∈ pre, t.type ≠ TokenType.lparen ∧ t.type ≠ TokenType.eof)
    (hlp : lp.type = TokenType.lparen)
    (hun : unclosedFrom rest 1 = true) :
    ∃ l c, parseProgram input = .error (missingParenMsg l c) := by
  have hcur : (cur (lp :: rest)).type = TokenType.lparen := by simp [cur, hlp]
  have hchild := (parse_unclosed (2 * (pre ++ lp :: rest).length + 3)).1 rest 1 (le_refl 1)
    (by simp [List.length_append]; omega) hun
  rcases hchild with ⟨l, c, herr⟩ | ⟨h21, -⟩
  · refine ⟨l, c, ?_⟩
    unfold parseProgram parseAndBuild
    rw [hts]
    unfold parseSExpr
    rw [skipToLParen_append pre lp rest hpre hlp]
    rw [if_neg (by simp [cur, hlp])]
    have hnode : parseSExprNodeF (2 * (pre ++ lp :: rest).length + 4) (lp :: rest) =
        .error (missingParenMsg l c) := by
      rw [show 2 * (pre ++ lp :: rest).length + 4 = (2 * (pre ++ lp :: rest).length + 3) + 1 from rfl]
      unfold parseSExprNodeF
      rw [if_pos hcur]
      simp only [List.tail_cons, herr]
    simp only [hnode]
  · omega

/-- Witness for C5: the input `(abc` with one unmatched parenthesis. -/
theorem claim_C5_missing_closing_paren_witness :
    ∃ l c, parseProgram "(abc" = .error (missingParenMsg l c) :=
  claim_C5_missing_closing_paren "(abc" [] ⟨TokenType.lparen, "(", 1, 1⟩
    [⟨TokenType.identifier, "abc", 1, 2⟩, ⟨TokenType.eof, "", 1, 5⟩]
    (by rfl) (by intro t ht; exact absurd ht (List.not_mem_nil t)) rfl (by decide)

set_option maxRecDepth 100000 in
/-- Claim C6.  Enum parameter parsing accepts both shapes: the spec's enum
scenario input parses to exactly one parameter with type `enum`,
constraints `A`,`B`,`C` in order, and description `enum param`; and on
S-expression nodes, both the flat `(name enum ("v" …))` shape and the
nested `(name (enum ("v" …)))` shape produce type `enum` with the listed
constraints in order (the flat shape's hypothesis excludes a value list
starting with the keyword `desc`, which `parseParameterSExpr` skips as a
description node). -/
theorem claim_C6_enum_shapes :
    (parseProgram enumScenarioInput = .ok
      { name := "myprog",
        parameters := [{ name := "param1", description := "enum param", type := "enum",
                         constraints := ["A", "B", "C"],
                         metadata := [("desc", "enum param")] }] }) ∧
    (∀ (name : String) (vals : List String),
      parseParameterSExpr (enumNestedNode name vals) =
        { name := name, type := "enum", constraints := vals }) ∧
    (∀ (name : String) (vals : List String), vals.headD "" ≠ "desc" →
      parseParameterSExpr (enumFlatNode name vals) =
        { name := name, type := "enum", constraints := vals }) := by
  refine ⟨by rfl, ?_, ?_⟩
  · intro name vals
    cases vals with
    | nil => rfl
    | cons v vs =>
      simp only [parseParameterSExpr, enumNestedNode, enumNestedConstraints, paramMetaScan,
        listNode_token, listNode_children, identLeaf_token, identLeaf_children,
        strLeaf_token, strLeaf_children, List.foldl_cons, List.foldl_nil,
        List.length_cons, List.length_map, List.length_nil, List.drop, List.headD, List.getD]
      simp [listNode_token, listNode_children, identLeaf_token, identLeaf_children,
        strLeaf_token, strLeaf_children, strLeaf_filterMap_comp]
  · intro name vals h
    cases vals with
    | nil => rfl
    | cons v vs =>
      have hv : v ≠ "desc" := by simpa using h
      simp only [parseParameterSExpr, enumFlatNode, enumDirectConstraints, paramMetaScan,
        listNode_token, listNode_children, identLeaf_token, identLeaf_children,
        strLeaf_token, strLeaf_children, List.foldl_cons, List.foldl_nil,
        List.length_cons, List.length_map, List.length_nil, List.drop, List.headD, List.getD]
      simp [hv, listNode_token, listNode_children, identLeaf_token, identLeaf_children,
        strLeaf_token, strLeaf_children, strLeaf_filterMap_comp]

/-- Witness for C6: the flat shape at a concrete name and value list. -/
theorem claim_C6_enum_shapes_witness :
    parseParameterSExpr (enumFlatNode "p" ["A"]) =
      { name := "p", type := "enum", constraints := ["A"] } :=
  claim_C6_enum_shapes.2.2 "p" ["A"] (by decide)

end Baryon

namespace Baryon

/-- Claim C7.  From any lexer state about to read a string literal whose
closing quote never appears (the opening `"` is the current character, and
after it neither a `"` nor the NUL end-of-input sentinel occurs in the
input), tokenization terminates and emits exactly a string token whose
literal is the partial content after the opening quote — no error token —
followed by the end-of-input token. -/
theorem claim_C7_unterminated_string (fuel : Nat) (l : LexerState)
    (hfuel : 2 ≤ fuel)
    (hch : l.ch = '"')
    (hrp : l.readPosition = l.position + 1)
    (hlt : l.position < l.input.length)
    (hns : noStrTerm (l.input.drop l.readPosition)) :
    ∃ line2 col2,
      tokenizeLoop fuel l =
        [⟨TokenType.string, ⟨l.input.drop l.readPosition⟩, l.line, l.column⟩,
         ⟨TokenType.eof, "", line2, col2⟩] := by
  rw [hrp] at hns ⊢
  obtain ⟨hstr, hch2⟩ := readString_noquote l hrp hlt hns
  obtain ⟨f, rfl⟩ : ∃ f, fuel = f + 2 := ⟨fuel - 2, by omega⟩
  have hws : ¬(l.ch = ' ' ∨ l.ch = '\t' ∨ l.ch = '\n' ∨ l.ch = '\r') := by
    rw [hch]; decide
  have hpair : readString l '"' =
      (⟨l.input.drop (l.position + 1)⟩, (readString l '"').2) := by
    rw [← hstr]
  refine ⟨(readString l '"').2.line, (readString l '"').2.column, ?_⟩
  show tokenizeLoop (f + 1 + 1) l = _
  rw [tokenizeLoop, skipWhitespace_id l hws]
  simp only []
  rw [if_neg (by rw [hch]; decide), if_neg (by rw [hch]; decide), if_pos hch]
  rw [hpair]
  simp only []
  rw [tokenizeLoop_eof f (readString l '"').2 hch2]

/-- Witness for C7: the input `"abc`, whose string literal is never
closed, tokenizes to the partial content `abc` and end of input. -/
theorem claim_C7_unterminated_string_witness :
    ∃ line2 col2,
      tokenize "\"abc" =
        [⟨TokenType.string, "abc", 1, 1⟩, ⟨TokenType.eof, "", line2, col2⟩] := by
  have h := claim_C7_unterminated_string 6 (newLexer ("\"abc").data)
    (by decide) (by decide) (by decide) (by decide) (by decide)
  obtain ⟨l2, c2, hh⟩ := h
  exact ⟨l2, c2, hh⟩

/-- Claim C8.  Generation is deterministic: the R, Python and Nextflow
`Transpile` entry points reset the instance buffer before writing, so two
fresh instances of the same kind (differing at most in their buffer) give
byte-identical results on the same `Program`; the Galaxy `Transpile` never
reads its instance state at all. -/
theorem claim_C8_deterministic_generation (p : Program) (b₁ b₂ : String) :
    rTranspile p { newRTranspiler with buffer := b₁ } =
      rTranspile p { newRTranspiler with buffer := b₂ } ∧
    pyTranspile p { newPythonTranspiler with buffer := b₁ } =
      pyTranspile p { newPythonTranspiler with buffer := b₂ } ∧
    nfTranspile p { newNextflowTranspiler with buffer := b₁ } =
      nfTranspile p { newNextflowTranspiler with buffer := b₂ } ∧
    (∀ t₁ t₂ : TranspilerBase, galaxyTranspile p t₁ = galaxyTranspile p t₂) :=
  ⟨rfl, rfl, rfl, fun _ _ => rfl⟩

/-- Claim C9.  For a non-negative indentation level, `WriteLine` appends to
the buffer exactly the level's repetitions of two spaces, then the text,
then one newline, and leaves the indentation level (and everything else in
the state) unchanged. -/
theorem claim_C9_writeline (t : TranspilerBase) (s : String) (h : 0 ≤ t.indentLevel) :
    writeLine t s =
      { indentLevel := t.indentLevel,
        buffer := t.buffer ++ (String.join (List.replicate t.indentLevel.toNat "  ") ++ (s ++ "\n")) } ∧
    (writeLine t s).indentLevel = t.indentLevel :=
  ⟨rfl, rfl⟩

/-- Witness for C9: a fresh transpiler state (level 0) and the text `x`. -/
theorem claim_C9_writeline_witness :
    (0 : Int) ≤ newRTranspiler.indentLevel ∧
    (writeLine newRTranspiler "x" =
      { indentLevel := newRTranspiler.indentLevel,
        buffer := newRTranspiler.buffer ++
          (String.join (List.replicate newRTranspiler.indentLevel.toNat "  ") ++ ("x" ++ "\n")) } ∧
     (writeLine newRTranspiler "x").indentLevel = newRTranspiler.indentLevel) :=
  ⟨by decide, claim_C9_writeline newRTranspiler "x" (by decide)⟩

/-- Claim C10.  Whenever `ParseProgram` succeeds, the returned program's
metadata map is empty: `sExprToAST` initialises it empty and no body
element ever writes to it (a top-level `(key value)` form becomes a
`Parameter` instead). -/
theorem claim_C10_empty_metadata (input : String) (prog : Program)
    (h : parseProgram input = .ok prog) : prog.metadata = [] := by
  unfold parseProgram parseAndBuild at h
  split at h
  · exact absurd h (by simp)
  · rename_i root rest heq
    split at h
    · exact absurd h (by simp)
    · rename_i prog' errs heq2
      split at h
      · exact absurd h (by simp)
      · rename_i he
        simp only [Except.ok.injEq] at h
        subst h
        unfold sExprToAST at heq2
        split at heq2
        · exact absurd heq2 (by simp)
        · split at heq2
          · exact absurd heq2 (by simp)
          · split at heq2
            · exact absurd heq2 (by simp)
            · simp only [Except.ok.injEq] at heq2
              have h1 := congrArg Prod.fst heq2
              simp only at h1
              rw [← h1]
              exact processBody_metadata _ _ _ _

set_option maxRecDepth 40000 in
/-- Witness for C10: a program whose body holds a `(key value)` form; the
parse succeeds (the form becomes a parameter) and the metadata is empty. -/
theorem claim_C10_empty_metadata_witness :
    ∃ prog, parseProgram "(bala p ((key value)))" = .ok prog ∧ prog.metadata = [] :=
  ⟨{ name := "p", parameters := [{ name := "key", type := "value" }] }, rfl,
   claim_C10_empty_metadata "(bala p ((key value)))"
     { name := "p", parameters := [{ name := "key", type := "value" }] } rfl⟩

end Baryon
